import Mathlib

/-!
Verification development for the `ml-sidecar` usage-pattern detection and
workload classification engine
(`src/ml-sidecar/app/classifier/patterns.py` and
`src/ml-sidecar/app/classifier/workload.py`).

Modelling conventions, used throughout:

* Python floats are modelled exactly by `ℚ`; the only irrational operation
  in the source, `math.sqrt` (inside `statistics.stdev` and the Pearson
  correlation), is modelled by `Real.sqrt` over `ℝ`.  Wherever the source
  only ever *compares* such a square root against a constant, the
  comparison is carried out on the radicand (`sqrt v ≤ t ↔ v ≤ t²` for
  `0 ≤ t`), which keeps the definitions computable; each such encoding has
  an accompanying bridge lemma against the `Real.sqrt` form.
* `datetime` timestamps are modelled as integer seconds on a leap-second
  free timeline, exactly the arithmetic `datetime` uses for naive
  datetimes: `timedelta.total_seconds` is plain subtraction, a calendar
  day is `⌊t / 86400⌋`, the hour of day `⌊t / 3600⌋ mod 24`, the weekday
  `(⌊t / 86400⌋ + 3) mod 7` (the epoch day is a Thursday).
* Python `dict`s preserve insertion order; they are modelled as
  association lists in first-insertion order.
* `list.sort(key=..., reverse=True)` and `max(..., key=...)` are stable
  (the first maximal element wins); they are modelled by a stable
  insertion sort and a strict-improvement fold respectively.
* Both detector and classifier are modelled at their default
  configuration (`config = None`); `_apply_config` then leaves every
  threshold at its class-level default.
* Free-text fields (`reasons`, `recommendations`, `warnings`) and the
  savings estimation are not modelled; no claim concerns them.
-/

set_option maxRecDepth 400000

namespace FinOps

/-! # Definitions -/

/-! ## Shared numeric helpers -/

/-- `statistics.mean` over `ℚ` (the source never calls it on an empty
list; on `[]` this returns the junk value `0`). -/
def meanQ (l : List ℚ) : ℚ := l.sum / l.length

/-- One step of a stable insertion sort (ascending). -/
def insertSorted (v : ℚ) : List ℚ → List ℚ
  | [] => [v]
  | x :: xs => if v ≤ x then v :: x :: xs else x :: insertSorted v xs

/-- Python `sorted` on a list of numbers, as a stable insertion sort. -/
def sortQ (l : List ℚ) : List ℚ := l.foldr insertSorted []

/-- `_percentile(values, p)` — identical helper in `patterns.py` and
`workload.py`: linear interpolation between the order statistics at
fractional rank `(n-1)*p/100` (`int(index)` truncates, which on this
non-negative rank is the floor); `0` on the empty list. -/
def percentileQ (values : List ℚ) (p : ℚ) : ℚ :=
  if values = [] then 0
  else
    let sorted_values := sortQ values
    let index : ℚ := (sorted_values.length - 1) * p / 100
    let lower : ℕ := ⌊index⌋.toNat
    let upper : ℕ := lower + 1
    if sorted_values.length ≤ upper then sorted_values.getLastD 0
    else
      let weight : ℚ := index - lower
      (sorted_values.getD lower 0) * (1 - weight) + (sorted_values.getD upper 0) * weight

/-- Python `max(values)` scan: keep the current maximum, replacing it on
a strictly greater element. -/
def pythonMaxAux (b : ℚ) : List ℚ → ℚ
  | [] => b
  | v :: vs => if b < v then pythonMaxAux v vs else pythonMaxAux b vs

/-- Python `max(values)` (junk `0` on `[]`, never reached in the
source). -/
def pythonMaxQ : List ℚ → ℚ
  | [] => 0
  | x :: xs => pythonMaxAux x xs

/-- Python `min(values)` scan. -/
def pythonMinAux (b : ℚ) : List ℚ → ℚ
  | [] => b
  | v :: vs => if v < b then pythonMinAux v vs else pythonMinAux b vs

/-- Python `min(values)` (junk `0` on `[]`). -/
def pythonMinQ : List ℚ → ℚ
  | [] => 0
  | x :: xs => pythonMinAux x xs

/-- Centred square sum `Σ (v - mean)²` over a list.  This is the radicand
of both `statistics.stdev` (up to the `n-1` divisor) and of the
correlation denominators `denom_x`, `denom_y`. -/
def centeredSq (l : List ℚ) : ℚ := (l.map (fun v => (v - meanQ l) ^ 2)).sum

/-- Correlation numerator `Σ (xᵢ - mean x) * (yᵢ - mean y)`. -/
def crossSum (x y : List ℚ) : ℚ :=
  ((x.zip y).map (fun p => (p.1 - meanQ x) * (p.2 - meanQ y))).sum

/-- `statistics.stdev` squared, i.e. the sample variance
`Σ (v - mean)² / (n - 1)`. -/
def sampleVar (l : List ℚ) : ℚ := centeredSq l / ((l.length : ℚ) - 1)

/-! ## Timestamps

`MetricPoint.timestamp` / `MetricDataPoint.timestamp` (the two source
dataclasses are structurally identical; one Lean structure models both)
is an integer count of seconds. -/

/-- Single metric data point (`MetricPoint` in patterns.py,
`MetricDataPoint` in workload.py). -/
structure MetricPoint where
  timestamp : ℤ
  value : ℚ
deriving DecidableEq, Repr

/-- `timestamp.date()` as an integer day index (floor division matches
the naive-`datetime` calendar day). -/
def dateOf (t : ℤ) : ℤ := Int.fdiv t 86400

/-- `timestamp.hour`. -/
def hourOf (t : ℤ) : ℤ := Int.emod (Int.fdiv t 3600) 24

/-- `timestamp.weekday()` (Monday = 0; the epoch day is a Thursday). -/
def weekdayOf (t : ℤ) : ℤ := Int.emod (Int.fdiv t 86400 + 3) 7

/-! ## `_simple_correlation` (workload.py lines 482–498) -/

/-- `_simple_correlation(x, y)`: the Pearson correlation coefficient —
`0.0` when the lengths differ or are zero, `0.0` when either
`denom_x = sqrt(Σ(xᵢ-x̄)²)` or `denom_y` vanishes (i.e. when the centred
square sum vanishes), else `numerator / (denom_x * denom_y)`. -/
noncomputable def simple_correlation (x y : List ℚ) : ℝ :=
  if x.length ≠ y.length ∨ x.length = 0 then 0
  else if centeredSq x = 0 ∨ centeredSq y = 0 then 0
  else (crossSum x y : ℝ) / (Real.sqrt (centeredSq x) * Real.sqrt (centeredSq y))

/-- Computable test for `simple_correlation x y > 7/10`.  Since the
correlation is `c / sqrt(a*b)` with `a, b > 0` in the only branch that
can exceed `7/10`, the comparison is equivalent to
`0 < c ∧ 49*a*b < 100*c²`; `corrGT7` is that rational test.  The
equivalence with the `Real.sqrt` form is `corrGT7_iff` below. -/
def corrGT7 (x y : List ℚ) : Bool :=
  !(decide (x.length ≠ y.length ∨ x.length = 0)) &&
  !(decide (centeredSq x = 0 ∨ centeredSq y = 0)) &&
  decide (0 < crossSum x y) &&
  decide (49 * (centeredSq x * centeredSq y) < 100 * crossSum x y ^ 2)

/-! ## `_detect_periodic_pattern` (workload.py lines 446–480)

The source, for each candidate `period` in `[24, 168]`, skips the period
unless `len(values) >= period * min_periods`, then collects the
correlations between the first `period`-window and the windows at offsets
`i*period` for `i in range(1, min_periods)` (breaking when a window would
run past the end — impossible under the guard), and returns `True` when
the collected list is non-empty with mean `> 0.7`.  `min_periods` is a
keyword argument that defaults to `2` and is never overridden by any
caller. -/

/-- Mean of a list of reals (`statistics.mean`; junk `0` on `[]`). -/
noncomputable def meanR (l : List ℝ) : ℝ := l.sum / l.length

/-- The correlation list collected for one candidate lag. -/
noncomputable def periodCorrelations (values : List ℚ) (period minp : ℕ) : List ℝ :=
  (((List.range' 1 (minp - 1)).takeWhile (fun i => decide ((i + 1) * period ≤ values.length))).map
    (fun i => simple_correlation (values.take period) ((values.drop (i * period)).take period)))

/-- One candidate lag confirms periodicity: the guard
`len(values) >= period * min_periods` passes, the correlation list is
non-empty, and its mean exceeds `0.7`. -/
def lagConfirms (values : List ℚ) (period minp : ℕ) : Prop :=
  period * minp ≤ values.length ∧
  periodCorrelations values period minp ≠ [] ∧
  (7 / 10 : ℝ) < meanR (periodCorrelations values period minp)

/-- `_detect_periodic_pattern(values, min_periods)`: `False` below 48
samples, otherwise `True` iff lag 24 or lag 168 confirms. -/
def detect_periodic_pattern (values : List ℚ) (minp : ℕ := 2) : Prop :=
  48 ≤ values.length ∧ (lagConfirms values 24 minp ∨ lagConfirms values 168 minp)

/-- Computable version of `detect_periodic_pattern values 2` (the only
instantiation the source ever uses): with `min_periods = 2` the
correlation list for a lag is the single correlation of the first two
windows, so the mean test reduces to `corrGT7`.  Bridge:
`detect_periodic_patternB_iff`. -/
def detect_periodic_patternB (values : List ℚ) : Bool :=
  decide (48 ≤ values.length) &&
  ((decide (48 ≤ values.length) && corrGT7 (values.take 24) ((values.drop 24).take 24)) ||
   (decide (336 ≤ values.length) && corrGT7 (values.take 168) ((values.drop 168).take 168)))

/-- Modelled from the spec (§4.3 "Periodicity detection"): "For each
candidate lag in {24, 168} (hours), if the series is long enough to
contain at least two full lag-length windows, compute the Pearson
correlation between the first window and each subsequent same-length
window offset by multiples of the lag; periodicity is confirmed for that
lag if the mean of these correlations exceeds 0.7."  The subsequent
windows are those at offsets `i*period` for every `i ≥ 1` with
`(i+1)*period ≤ len`, i.e. `i ∈ [1, len/period - 1]`. -/
def specLagConfirms (values : List ℚ) (period : ℕ) : Prop :=
  period * 2 ≤ values.length ∧
  (7 / 10 : ℝ) < meanR ((List.range' 1 (values.length / period - 1)).map
    (fun i => simple_correlation (values.take period) ((values.drop (i * period)).take period)))

/-- Spec-modelled periodicity detection ("Periodicity is reported true
if either lag confirms"). -/
def detect_periodic_specModel (values : List ℚ) : Prop :=
  specLagConfirms values 24 ∨ specLagConfirms values 168

/-! ## patterns.py data model -/

/-- `PatternType` — the nine usage-pattern kinds, in declaration order. -/
inductive PatternType where
  | idle_dominant
  | steady_state
  | bursty
  | diurnal
  | weekly
  | batch
  | growing
  | declining
  | erratic
deriving DecidableEq, Repr

/-- `IdlePattern`. -/
structure IdlePattern where
  idle_percent : ℚ
  avg_idle_duration_hours : ℚ
  max_idle_duration_hours : ℚ
  idle_periods : List (ℤ × ℤ)
  is_idle_dominant : Bool
deriving DecidableEq, Repr

/-- `BurstPattern` (`burst_periods` entries are (start, end, peak)). -/
structure BurstPattern where
  is_bursty : Bool
  burst_count : ℕ
  avg_burst_duration_minutes : ℚ
  avg_burst_intensity : ℚ
  avg_quiet_duration_hours : ℚ
  burst_periods : List (ℤ × ℤ × ℚ)
deriving DecidableEq, Repr

/-- `DiurnalPattern` (`hourly_averages` as an hour-keyed association
list in key order 0..23). -/
structure DiurnalPattern where
  has_diurnal_pattern : Bool
  peak_hour : ℤ
  trough_hour : ℤ
  peak_to_trough_ratio : ℚ
  hourly_averages : List (ℤ × ℚ)
deriving DecidableEq, Repr

/-- `WeeklyPattern`. -/
structure WeeklyPattern where
  has_weekly_pattern : Bool
  peak_day : ℤ
  trough_day : ℤ
  weekday_avg : ℚ
  weekend_avg : ℚ
  daily_averages : List (ℤ × ℚ)
deriving DecidableEq, Repr

/-- `MemoryPattern`.  `is_memory_stable` is `statistics.stdev < 10`,
carried out on the sample variance (`< 100`). -/
structure MemoryPattern where
  avg_utilization : ℚ
  max_utilization : ℚ
  min_utilization : ℚ
  has_memory_leak : Bool
  leak_rate_percent_per_day : Option ℚ
  memory_pressure_events : ℕ
  is_memory_stable : Bool
deriving DecidableEq, Repr

/-- `TrendPattern` (`direction` is one of "growing"/"declining"/"stable"). -/
structure TrendPattern where
  direction : String
  slope_per_day : ℚ
  r_squared : ℚ
  predicted_30_day_value : ℚ
deriving DecidableEq, Repr

/-- `PatternAnalysis` (the free-text `recommendations` list is not
modelled). -/
structure PatternAnalysis where
  instance_id : String
  analysis_period_days : ℤ
  primary_pattern : PatternType
  idle : IdlePattern
  burst : BurstPattern
  diurnal : DiurnalPattern
  weekly : WeeklyPattern
  memory : MemoryPattern
  trend : TrendPattern
  confidence : ℚ
deriving DecidableEq, Repr

/-! ## patterns.py sub-analyses -/

/-- Linear scan for idle intervals: state is (closed intervals so far,
start of the open idle interval if inside one).  Threshold is
`IDLE_THRESHOLD_CPU = 5.0`. -/
def idleFoldStep (th : ℚ) (st : List (ℤ × ℤ) × Option ℤ) (p : MetricPoint) :
    List (ℤ × ℤ) × Option ℤ :=
  match st with
  | (periods, none) => if p.value < th then (periods, some p.timestamp) else (periods, none)
  | (periods, some s) =>
      if p.value < th then (periods, some s) else (periods ++ [(s, p.timestamp)], none)

/-- `_analyze_idle_pattern`. -/
def analyze_idle_pattern (metrics : List MetricPoint) : IdlePattern :=
  if metrics = [] then ⟨0, 0, 0, [], false⟩
  else
    let st := metrics.foldl (idleFoldStep 5) ([], none)
    let idle_periods :=
      match st.2 with
      | some s => st.1 ++ [(s, (metrics.getLastD ⟨0, 0⟩).timestamp)]
      | none => st.1
    let idle_count := metrics.countP (fun p => decide (p.value < 5))
    let idle_percent : ℚ := (idle_count : ℚ) / metrics.length * 100
    let durations := idle_periods.map (fun q => ((q.2 - q.1 : ℤ) : ℚ) / 3600)
    ⟨idle_percent,
     if idle_periods = [] then 0 else meanQ durations,
     if idle_periods = [] then 0 else pythonMaxQ durations,
     idle_periods,
     decide (70 < idle_percent)⟩

/-- Linear scan for burst intervals: state is (closed bursts so far,
(start, running peak) of the open burst if inside one). -/
def burstFoldStep (th : ℚ) (st : List (ℤ × ℤ × ℚ) × Option (ℤ × ℚ)) (p : MetricPoint) :
    List (ℤ × ℤ × ℚ) × Option (ℤ × ℚ) :=
  match st with
  | (periods, none) =>
      if th < p.value then (periods, some (p.timestamp, p.value)) else (periods, none)
  | (periods, some (s, peak)) =>
      if th < p.value then (periods, some (s, max peak p.value))
      else (periods ++ [(s, p.timestamp, peak)], none)

/-- `_analyze_burst_pattern`: baseline is the 25th percentile,
`burst_threshold = max(baseline * 2.0, 20)`, bursts shorter than 5
minutes (300 s) are discarded, and `is_bursty` needs ≥ 3 surviving
bursts, mean intensity > 2 and mean quiet gap > 1 h. -/
def analyze_burst_pattern (metrics : List MetricPoint) : BurstPattern :=
  if metrics.length < 10 then ⟨false, 0, 0, 0, 0, []⟩
  else
    let values := metrics.map (·.value)
    let baseline := percentileQ values 25
    let burst_threshold := max (baseline * 2) 20
    let st := metrics.foldl (burstFoldStep burst_threshold) ([], none)
    let all_periods :=
      match st.2 with
      | some sp => st.1 ++ [(sp.1, (metrics.getLastD ⟨0, 0⟩).timestamp, sp.2)]
      | none => st.1
    let burst_periods := all_periods.filter (fun q => decide (300 ≤ q.2.1 - q.1))
    let avg_duration :=
      if burst_periods = [] then 0
      else meanQ (burst_periods.map (fun q => ((q.2.1 - q.1 : ℤ) : ℚ) / 60))
    let avg_intensity :=
      if burst_periods = [] then 0
      else meanQ (burst_periods.map (fun q => q.2.2 / max baseline 1))
    let quiet_durations :=
      (burst_periods.zip burst_periods.tail).map
        (fun qq => ((qq.2.1 - qq.1.2.1 : ℤ) : ℚ) / 3600)
    let avg_quiet :=
      if burst_periods = [] then 0
      else if quiet_durations = [] then 0 else meanQ quiet_durations
    ⟨decide (3 ≤ burst_periods.length ∧ 2 < avg_intensity ∧ 1 < avg_quiet),
     burst_periods.length, avg_duration, avg_intensity, avg_quiet, burst_periods⟩

/-- Python `max(d, key=d.get)` over an association list: the first
maximal-by-value pair (replacement only on a strictly greater value). -/
def maxPairByValue : List (ℤ × ℚ) → ℤ × ℚ
  | [] => (0, 0)
  | x :: xs => xs.foldl (fun b p => if b.2 < p.2 then p else b) x

/-- Python `min(d, key=d.get)` over an association list. -/
def minPairByValue : List (ℤ × ℚ) → ℤ × ℚ
  | [] => (0, 0)
  | x :: xs => xs.foldl (fun b p => if p.2 < b.2 then p else b) x

/-- `_analyze_diurnal_pattern`: below 48 samples the neutral default;
otherwise bucket by hour of day (empty buckets average to 0),
`ratio = peak / max(trough, 0.1)`, significant iff `ratio ≥ 1.5`. -/
def analyze_diurnal_pattern (metrics : List MetricPoint) : DiurnalPattern :=
  if metrics.length < 48 then ⟨false, 0, 0, 1, []⟩
  else
    let avgAt : ℕ → ℚ := fun h =>
      let vs := (metrics.filter (fun p => decide (hourOf p.timestamp = (h : ℤ)))).map (·.value)
      if vs = [] then 0 else meanQ vs
    let hourly_averages := (List.range 24).map (fun h => (Int.ofNat h, avgAt h))
    let peak := maxPairByValue hourly_averages
    let trough := minPairByValue hourly_averages
    let ratio := peak.2 / max trough.2 (1 / 10)
    ⟨decide (3 / 2 ≤ ratio), peak.1, trough.1, ratio, hourly_averages⟩

/-- `_analyze_weekly_pattern`: below 168 samples the neutral default;
otherwise bucket by weekday, compare weekday (Mon–Fri) and weekend
(Sat–Sun) bucket-average means; significant iff
`|weekday - weekend| / max(weekday, weekend, 1) > 0.3`. -/
def analyze_weekly_pattern (metrics : List MetricPoint) : WeeklyPattern :=
  if metrics.length < 168 then ⟨false, 0, 0, 0, 0, []⟩
  else
    let avgAt : ℕ → ℚ := fun d =>
      let vs := (metrics.filter (fun p => decide (weekdayOf p.timestamp = (d : ℤ)))).map (·.value)
      if vs = [] then 0 else meanQ vs
    let daily_averages := (List.range 7).map (fun d => (Int.ofNat d, avgAt d))
    let peak := maxPairByValue daily_averages
    let trough := minPairByValue daily_averages
    let weekday_avg := meanQ [avgAt 0, avgAt 1, avgAt 2, avgAt 3, avgAt 4]
    let weekend_avg := meanQ [avgAt 5, avgAt 6]
    ⟨decide (3 / 10 < |weekday_avg - weekend_avg| / max weekday_avg (max weekend_avg 1)),
     peak.1, trough.1, weekday_avg, weekend_avg, daily_averages⟩

/-- Append a value to its calendar day's bucket, preserving
first-insertion order of days (Python `dict` semantics). -/
def addToDay (acc : List (ℤ × List ℚ)) (d : ℤ) (v : ℚ) : List (ℤ × List ℚ) :=
  match acc with
  | [] => [(d, [v])]
  | (d', vs) :: rest =>
      if d' = d then (d', vs ++ [v]) :: rest else (d', vs) :: addToDay rest d v

/-- Bucket a series by calendar day, in first-occurrence order. -/
def dailyGroups (metrics : List MetricPoint) : List (ℤ × List ℚ) :=
  metrics.foldl (fun acc p => addToDay acc (dateOf p.timestamp) p.value) []

/-- One mean per calendar day, in first-occurrence order
(`daily_means`). -/
def dailyMeans (metrics : List MetricPoint) : List ℚ :=
  (dailyGroups metrics).map (fun g => meanQ g.2)

/-- OLS denominator `Σ (i - (n-1)/2)²` over day indices `0..n-1`. -/
def regressionDen (n : ℕ) : ℚ :=
  ((List.range n).map (fun (i : ℕ) => ((i : ℚ) - ((n : ℚ) - 1) / 2) ^ 2)).sum

/-- OLS numerator `Σ (i - x̄)(yᵢ - ȳ)` with `x̄ = (n-1)/2`. -/
def regressionNum (ys : List ℚ) : ℚ :=
  ((List.range ys.length).map
    (fun (i : ℕ) => ((i : ℚ) - ((ys.length : ℚ) - 1) / 2) * (ys.getD i 0 - meanQ ys))).sum

/-- The ordinary-least-squares slope of index versus value (junk `0`
when the denominator vanishes; the callers guard that case). -/
def regressionSlope (ys : List ℚ) : ℚ := regressionNum ys / regressionDen ys.length

/-- `_detect_memory_leak`: `None` below 48 samples or below 3 distinct
days or on a vanishing denominator; otherwise the slope when it exceeds
`0.5`, else `None`. -/
def detect_memory_leak (metrics : List MetricPoint) : Option ℚ :=
  if metrics.length < 48 then none
  else
    let dm := dailyMeans metrics
    if dm.length < 3 then none
    else if regressionDen dm.length = 0 then none
    else if 1 / 2 < regressionSlope dm then some (regressionSlope dm) else none

/-- `opt is not None and opt > t`. -/
def optGT (o : Option ℚ) (t : ℚ) : Bool :=
  match o with
  | none => false
  | some v => decide (t < v)

/-- `_analyze_memory_pattern`: on the empty series the neutral default;
`has_memory_leak` iff a leak rate was reported and exceeds
`MEMORY_LEAK_THRESHOLD = 1.0`. -/
def analyze_memory_pattern (metrics : List MetricPoint) : MemoryPattern :=
  if metrics = [] then ⟨0, 0, 0, false, none, 0, true⟩
  else
    let values := metrics.map (·.value)
    let leak := detect_memory_leak metrics
    ⟨meanQ values, pythonMaxQ values, pythonMinQ values,
     optGT leak 1, leak,
     values.countP (fun v => decide (90 < v)),
     decide ((if 1 < values.length then sampleVar values else 0) < 100)⟩

/-- `_analyze_trend`: below 48 samples or below 3 distinct days a stable
default; otherwise OLS of day index versus daily mean with `R²`
(`max(0, 1 - ss_res/ss_tot)`, `0` when `ss_tot ≤ 0`), a clamped 30-day
projection, and a direction cut at `|slope| < 0.5`. -/
def analyze_trend (metrics : List MetricPoint) : TrendPattern :=
  if metrics.length < 48 then ⟨"stable", 0, 0, 0⟩
  else
    let dm := dailyMeans metrics
    if dm.length < 3 then ⟨"stable", 0, 0, dm.getLastD 0⟩
    else
      let n := dm.length
      let xm : ℚ := meanQ ((List.range n).map (fun (i : ℕ) => (i : ℚ)))
      let ym := meanQ dm
      let num := ((List.range n).map (fun (i : ℕ) => ((i : ℚ) - xm) * (dm.getD i 0 - ym))).sum
      let den := ((List.range n).map (fun (i : ℕ) => ((i : ℚ) - xm) ^ 2)).sum
      let slope := if den = 0 then 0 else num / den
      let intercept := ym - slope * xm
      let ss_res := ((List.range n).map (fun (i : ℕ) => (dm.getD i 0 - (slope * (i : ℚ) + intercept)) ^ 2)).sum
      let ss_tot := ((List.range n).map (fun (i : ℕ) => (dm.getD i 0 - ym) ^ 2)).sum
      let r2 := if 0 < ss_tot then 1 - ss_res / ss_tot else 0
      let predicted := max 0 (min 100 (slope * ((n : ℚ) + 30) + intercept))
      ⟨if |slope| < 1 / 2 then "stable" else if 0 < slope then "growing" else "declining",
       slope, max 0 r2, predicted⟩

/-! ## `_determine_primary_pattern` (patterns.py lines 593–663) -/

/-- The bursty candidate's score (the `scores[PatternType.BURSTY]`
assignment; also reused by the batch candidate, which reads that dict
entry back). -/
def burstyScoreOf (burst : BurstPattern) : ℚ :=
  if burst.is_bursty then
    min (1 / 2 + burst.avg_burst_intensity / 10 + (burst.burst_count : ℚ) / 50) (19 / 20)
  else 0

/-- The candidate scores of `_determine_primary_pattern` as a function of
the pattern type (the `scores` dict; `erratic` has no dict entry and is
assigned `0` here — it is not among the scored keys). -/
def patternScores (idle : IdlePattern) (burst : BurstPattern) (diurnal : DiurnalPattern)
    (weekly : WeeklyPattern) (trend : TrendPattern) : PatternType → ℚ
  | PatternType.idle_dominant =>
      if idle.is_idle_dominant then 4 / 5 + (idle.idle_percent - 70) / 100 else 0
  | PatternType.bursty => burstyScoreOf burst
  | PatternType.steady_state =>
      if ¬idle.is_idle_dominant ∧ ¬burst.is_bursty ∧ diurnal.peak_to_trough_ratio < 3 / 2
      then 7 / 10 else 0
  | PatternType.diurnal =>
      if diurnal.has_diurnal_pattern
      then min (1 / 2 + (diurnal.peak_to_trough_ratio - 3 / 2) / 3) (9 / 10) else 0
  | PatternType.weekly =>
      if weekly.has_weekly_pattern
      then min (1 / 2 + |weekly.weekday_avg - weekly.weekend_avg| / max weekly.weekday_avg 1)
               (17 / 20)
      else 0
  | PatternType.batch =>
      if burst.is_bursty ∧ (diurnal.has_diurnal_pattern ∨ weekly.has_weekly_pattern)
      then min (burstyScoreOf burst + 1 / 5) (19 / 20) else 0
  | PatternType.growing =>
      if trend.direction = "growing" ∧ 1 / 2 < trend.r_squared
      then 1 / 2 + trend.r_squared * (2 / 5) else 0
  | PatternType.declining =>
      if trend.direction = "declining" ∧ 1 / 2 < trend.r_squared
      then 1 / 2 + trend.r_squared * (2 / 5) else 0
  | PatternType.erratic => 0

/-- Insertion order of the `scores` dict literal (note: `bursty` is
inserted *before* `steady_state`, unlike the `PatternType` declaration
order). -/
def dictOrder : List PatternType :=
  [PatternType.idle_dominant, PatternType.bursty, PatternType.steady_state,
   PatternType.diurnal, PatternType.weekly, PatternType.batch,
   PatternType.growing, PatternType.declining]

/-- Declaration order of the `PatternType` enumeration (restricted to
the eight scored candidates). -/
def enumOrder : List PatternType :=
  [PatternType.idle_dominant, PatternType.steady_state, PatternType.bursty,
   PatternType.diurnal, PatternType.weekly, PatternType.batch,
   PatternType.growing, PatternType.declining]

/-- Python `max(scores, key=scores.get)`: iterate in dict insertion
order, keeping the current best and replacing it only on a strictly
greater score — the first maximal key wins. -/
def pythonMaxKey (s : PatternType → ℚ) : List PatternType → PatternType
  | [] => PatternType.erratic
  | x :: xs => xs.foldl (fun b k => if s b < s k then k else b) x

/-- The maximum of the eight candidate scores. -/
def maxScoreOf (s : PatternType → ℚ) : ℚ :=
  max (max (max (max (max (max (max (s PatternType.idle_dominant) (s PatternType.bursty))
    (s PatternType.steady_state)) (s PatternType.diurnal)) (s PatternType.weekly))
    (s PatternType.batch)) (s PatternType.growing)) (s PatternType.declining)

/-- The first pattern in `PatternType` declaration order attaining the
maximal score (the selection the spec describes for ties). -/
def enumFirstOf (s : PatternType → ℚ) : PatternType :=
  (enumOrder.find? (fun k => decide (s k = maxScoreOf s))).getD PatternType.erratic

/-- `_determine_primary_pattern`: highest score in dict order wins; a
winning score below `0.4` yields `(erratic, 0.5)` instead. -/
def determine_primary_pattern (idle : IdlePattern) (burst : BurstPattern)
    (diurnal : DiurnalPattern) (weekly : WeeklyPattern) (trend : TrendPattern) :
    PatternType × ℚ :=
  let s := patternScores idle burst diurnal weekly trend
  let best := pythonMaxKey s dictOrder
  let confidence := s best
  if confidence < 2 / 5 then (PatternType.erratic, 1 / 2) else (best, confidence)

/-- `PatternDetector.analyze`: run every sub-analysis (`if memory_metrics:`
is Python truthiness — `None` and `[]` both take the neutral default),
determine the primary pattern, and assemble the result.
`analysis_period_days` is `(last - first).days` (floor). -/
def analyze (instance_id : String) (cpu_metrics : List MetricPoint)
    (memory_metrics : Option (List MetricPoint)) : PatternAnalysis :=
  let idle := analyze_idle_pattern cpu_metrics
  let burst := analyze_burst_pattern cpu_metrics
  let diurnal := analyze_diurnal_pattern cpu_metrics
  let weekly := analyze_weekly_pattern cpu_metrics
  let trend := analyze_trend cpu_metrics
  let memory :=
    match memory_metrics with
    | none => ⟨0, 0, 0, false, none, 0, true⟩
    | some ms => if ms = [] then ⟨0, 0, 0, false, none, 0, true⟩ else analyze_memory_pattern ms
  let pc := determine_primary_pattern idle burst diurnal weekly trend
  let period :=
    match cpu_metrics with
    | [] => 0
    | m0 :: _ => Int.fdiv ((cpu_metrics.getLastD ⟨0, 0⟩).timestamp - m0.timestamp) 86400
  ⟨instance_id, period, pc.1, idle, burst, diurnal, weekly, memory, trend, pc.2⟩

/-! ## workload.py data model -/

/-- `WorkloadClassification`. -/
inductive WorkloadClassification where
  | lambda_candidate
  | fargate_candidate
  | spot_candidate
  | keep_ec2
deriving DecidableEq, Repr

/-- `CloudWatchMetrics` — the snapshot fed to the classifier. -/
structure CloudWatchMetrics where
  instance_id : String
  instance_type : String
  cpu_utilization : List MetricPoint := []
  memory_utilization : List MetricPoint := []
  network_in : List MetricPoint := []
  network_out : List MetricPoint := []
  disk_read_ops : List MetricPoint := []
  disk_write_ops : List MetricPoint := []
  disk_read_bytes : List MetricPoint := []
  disk_write_bytes : List MetricPoint := []
  has_elastic_ip : Bool := false
  has_persistent_storage : Bool := false
  in_auto_scaling_group : Bool := false
  instance_age_days : ℤ := 0
deriving DecidableEq, Repr

/-- The `stats` dict of `_compute_statistics`: a key is present
(`some`) exactly when the corresponding series is non-empty; `burst_ratio`
and the variability score are always present.  `cpu_stddev` and
`memory_stddev` are stored through their squares (the sample variance,
`0` for a one-sample series), since every later use is a comparison
against a non-negative constant. -/
structure Stats where
  cpu_avg : Option ℚ
  cpu_max : Option ℚ
  cpu_min : Option ℚ
  cpu_stddev_sq : Option ℚ
  cpu_p95 : Option ℚ
  cpu_p50 : Option ℚ
  cpu_idle_percent : Option ℚ
  memory_avg : Option ℚ
  memory_max : Option ℚ
  memory_stddev_sq : Option ℚ
  network_in_avg : Option ℚ
  network_in_max : Option ℚ
  network_out_avg : Option ℚ
  network_out_max : Option ℚ
  disk_read_ops_avg : Option ℚ
  disk_write_ops_avg : Option ℚ
  disk_write_ops_max : Option ℚ
  burst_ratio : ℚ
  variability_score_sq : ℚ
deriving DecidableEq, Repr

/-- `ClassificationResult` (free-text and savings fields not modelled). -/
structure ClassificationResult where
  instance_id : String
  classification : WorkloadClassification
  confidence : ℚ
  alternative_classifications : List (WorkloadClassification × ℚ)
deriving DecidableEq, Repr

/-- A statistic computed only when the series is non-empty. -/
def statOf (l : List ℚ) (f : List ℚ → ℚ) : Option ℚ :=
  if l = [] then none else some (f l)

/-- `_compute_statistics`.  `variability_score_sq` is the square of
`stats["variability_score"] = stats.get("cpu_stddev", 0) / max(stats.get("cpu_avg", 1), 0.1)`
(numerator and denominator are non-negative, so comparisons against
non-negative constants transfer to the squares). -/
def compute_statistics (m : CloudWatchMetrics) : Stats :=
  let cpu := m.cpu_utilization.map (·.value)
  let mem := m.memory_utilization.map (·.value)
  let nIn := m.network_in.map (·.value)
  let nOut := m.network_out.map (·.value)
  let dRead := m.disk_read_ops.map (·.value)
  let dWrite := m.disk_write_ops.map (·.value)
  let cpu_avg := statOf cpu meanQ
  let cpu_max := statOf cpu pythonMaxQ
  let cpu_stddev_sq := statOf cpu (fun l => if 1 < l.length then sampleVar l else 0)
  { cpu_avg := cpu_avg
    cpu_max := cpu_max
    cpu_min := statOf cpu pythonMinQ
    cpu_stddev_sq := cpu_stddev_sq
    cpu_p95 := statOf cpu (fun l => percentileQ l 95)
    cpu_p50 := statOf cpu (fun l => percentileQ l 50)
    cpu_idle_percent :=
      statOf cpu (fun l => ((l.countP (fun v => decide (v < 5)) : ℚ) / l.length) * 100)
    memory_avg := statOf mem meanQ
    memory_max := statOf mem pythonMaxQ
    memory_stddev_sq := statOf mem (fun l => if 1 < l.length then sampleVar l else 0)
    network_in_avg := statOf nIn meanQ
    network_in_max := statOf nIn pythonMaxQ
    network_out_avg := statOf nOut meanQ
    network_out_max := statOf nOut pythonMaxQ
    disk_read_ops_avg := statOf dRead meanQ
    disk_write_ops_avg := statOf dWrite meanQ
    disk_write_ops_max := statOf dWrite pythonMaxQ
    burst_ratio := cpu_max.getD 0 / max (cpu_avg.getD 1) (1 / 10)
    variability_score_sq := cpu_stddev_sq.getD 0 / (max (cpu_avg.getD 1) (1 / 10)) ^ 2 }

/-- `stats.get("..._stddev", dflt) <= bound` for a square-stored stddev
(every use has `0 ≤ bound`; `sqrt v ≤ bound ↔ v ≤ bound²`). -/
def stdevLE (osq : Option ℚ) (dflt bound : ℚ) : Bool :=
  match osq with
  | none => decide (dflt ≤ bound)
  | some v => decide (v ≤ bound ^ 2)

/-- Strict variant of `stdevLE`. -/
def stdevLT (osq : Option ℚ) (dflt bound : ℚ) : Bool :=
  match osq with
  | none => decide (dflt < bound)
  | some v => decide (v < bound ^ 2)

/-- `_score_lambda_candidate` (score only; reason strings dropped).
Thresholds: `LAMBDA_MAX_AVG_CPU = 20`, `LAMBDA_MIN_IDLE_PERCENT = 70`,
`LAMBDA_MIN_BURST_RATIO = 3`. -/
def score_lambda_candidate (m : CloudWatchMetrics) (st : Stats) : ℚ :=
  let c1 : ℚ := if st.cpu_avg.getD 100 ≤ 20 then 1 / 4 else 0
  let c2 : ℚ := if 70 ≤ st.cpu_idle_percent.getD 0 then 1 / 4 else 0
  let c3 : ℚ := if 3 ≤ st.burst_ratio then 1 / 5 else 0
  let c4 : ℚ := if st.disk_write_ops_avg.getD 0 < 100 then 3 / 20 else 0
  let p1 : ℚ := if m.has_persistent_storage then 1 / 5 else 0
  let p2 : ℚ := if m.in_auto_scaling_group then 1 / 10 else 0
  let p3 : ℚ := if 80 < st.memory_avg.getD 0 then 3 / 20 else 0
  max (c1 + c2 + c3 + c4 - p1 - p2 - p3) 0

/-- `_score_fargate_candidate`.  Thresholds: `FARGATE_MIN_AVG_CPU = 5`,
`FARGATE_MAX_AVG_CPU = 80`, `FARGATE_MAX_CPU_STDDEV = 25`,
`FARGATE_MIN_UPTIME_PERCENT = 80` (uptime is `100 - idle`, idle
defaulting to 100). -/
def score_fargate_candidate (m : CloudWatchMetrics) (st : Stats) : ℚ :=
  let c1 : ℚ := if 5 ≤ st.cpu_avg.getD 0 ∧ st.cpu_avg.getD 0 ≤ 80 then 1 / 5 else 0
  let c2 : ℚ := if stdevLE st.cpu_stddev_sq 100 25 then 1 / 5 else 0
  let c3 : ℚ := if 80 ≤ 100 - st.cpu_idle_percent.getD 100 then 1 / 5 else 0
  let c4 : ℚ := if stdevLT st.memory_stddev_sq 100 15 then 3 / 20 else 0
  let c5 : ℚ :=
    if 1000 < st.network_in_avg.getD 0 ∨ 1000 < st.network_out_avg.getD 0 then 1 / 10 else 0
  let c6 : ℚ := if m.in_auto_scaling_group then 1 / 10 else 0
  let p1 : ℚ := if 1000 < st.disk_write_ops_max.getD 0 then 3 / 20 else 0
  max (c1 + c2 + c3 + c4 + c5 + c6 - p1) 0

/-- `_score_spot_candidate`.  The variability comparison
`variability_score > 1.0` is carried out on the stored square (the score
is non-negative).  Periodicity uses `_detect_periodic_pattern` at its
default `min_periods = 2`, via the computable `detect_periodic_patternB`. -/
def score_spot_candidate (m : CloudWatchMetrics) (st : Stats) : ℚ :=
  let cpu_values := m.cpu_utilization.map (·.value)
  let c1 : ℚ := if 1 < st.variability_score_sq then 1 / 5 else 0
  let c2 : ℚ := if detect_periodic_patternB cpu_values then 1 / 5 else 0
  let c3 : ℚ := if 2 < st.burst_ratio ∧ 20 < st.cpu_avg.getD 0 then 3 / 20 else 0
  let c4 : ℚ := if 70 < st.cpu_p95.getD 0 then 3 / 20 else 0
  let c5 : ℚ := if st.network_out_avg.getD 0 < 10000 then 1 / 10 else 0
  let c6 : ℚ := if 30 < m.instance_age_days then 1 / 10 else 0
  let p1 : ℚ := if m.has_elastic_ip then 1 / 5 else 0
  max (c1 + c2 + c3 + c4 + c5 + c6 - p1) 0

/-- `_score_keep_ec2`: base score `0.3` plus rewards, capped at `1.0`. -/
def score_keep_ec2 (m : CloudWatchMetrics) (st : Stats) : ℚ :=
  let c1 : ℚ := if 70 < st.cpu_avg.getD 0 ∧ stdevLT st.cpu_stddev_sq 0 15 then 1 / 4 else 0
  let c2 : ℚ := if 70 < st.memory_avg.getD 0 then 3 / 20 else 0
  let c3 : ℚ :=
    if 500 < st.disk_read_ops_avg.getD 0 ∨ 500 < st.disk_write_ops_avg.getD 0 then 3 / 20 else 0
  let c4 : ℚ := if m.has_elastic_ip then 1 / 10 else 0
  let c5 : ℚ := if m.has_persistent_storage then 1 / 10 else 0
  min (3 / 10 + c1 + c2 + c3 + c4 + c5) 1

/-- One step of a stable descending insertion sort on (classification,
score) pairs: an element moves past another only on a strictly greater
score, so original order is kept among ties — exactly Python's stable
`list.sort(key=lambda x: x[1], reverse=True)`. -/
def insertDescPair (a : WorkloadClassification × ℚ) :
    List (WorkloadClassification × ℚ) → List (WorkloadClassification × ℚ)
  | [] => [a]
  | b :: l => if b.2 ≤ a.2 then a :: b :: l else b :: insertDescPair a l

/-- Stable descending sort by score. -/
def sortDescPairs (l : List (WorkloadClassification × ℚ)) :
    List (WorkloadClassification × ℚ) :=
  l.foldr insertDescPair []

/-- `WorkloadClassifier.classify`: score the four candidates, sort
descending by score (stable), pick the head, clamp confidence at `1.0`,
and list the remaining candidates with score `> 0.3` as alternatives. -/
def classify (m : CloudWatchMetrics) : ClassificationResult :=
  let st := compute_statistics m
  let scores : List (WorkloadClassification × ℚ) :=
    [(WorkloadClassification.lambda_candidate, score_lambda_candidate m st),
     (WorkloadClassification.fargate_candidate, score_fargate_candidate m st),
     (WorkloadClassification.spot_candidate, score_spot_candidate m st),
     (WorkloadClassification.keep_ec2, score_keep_ec2 m st)]
  let sorted := sortDescPairs scores
  let best := sorted.headD (WorkloadClassification.keep_ec2, 0)
  { instance_id := m.instance_id
    classification := best.1
    confidence := min best.2 1
    alternative_classifications := sorted.tail.filter (fun p => decide (3 / 10 < p.2)) }

/-! ## Concrete inputs used by counterexamples and witnesses -/

/-- A 24-point non-constant block. -/
def wBlock : List ℚ := 1 :: List.replicate 23 0

/-- 72-hour series: the first two 24-windows identical, the third in
anti-phase.  The code's detector (which only looks at the second window)
reports periodicity; the spec-modelled all-windows mean is `0`. -/
def c2series : List ℚ := wBlock ++ wBlock ++ wBlock.map (fun v => 2 - v)

/-- A constant 24-point block repeated 3 times: every window has zero
variance, so every correlation is defined to be `0`. -/
def c3series : List ℚ := (List.replicate 3 (List.replicate 24 (5 : ℚ))).flatten

/-- Three memory samples on three distinct days with steeply growing
daily means. -/
def c4series : List MetricPoint := [⟨0, 0⟩, ⟨86400, 50⟩, ⟨172800, 100⟩]

/-- 48 memory samples, 16 per day on three days, daily means 0/50/100. -/
def c4okSeries : List MetricPoint :=
  (List.range 48).map (fun i =>
    ⟨86400 * (i / 16 : ℕ), if i < 16 then 0 else if i < 32 then 50 else 100⟩)

/-- Neutral idle record. -/
def idleNeutral : IdlePattern := ⟨0, 0, 0, [], false⟩

/-- Neutral burst record. -/
def burstNeutral : BurstPattern := ⟨false, 0, 0, 0, 0, []⟩

/-- Diurnal record with no flagged pattern and a chosen
peak-to-trough ratio. -/
def diurnalFlat (r : ℚ) : DiurnalPattern := ⟨false, 0, 0, r, []⟩

/-- Neutral weekly record. -/
def weeklyNeutral : WeeklyPattern := ⟨false, 0, 0, 0, 0, []⟩

/-- Neutral (stable) trend record. -/
def trendStable : TrendPattern := ⟨"stable", 0, 0, 0⟩

/-- One 168-hour half: 17 samples at 85 followed by 151 samples at
exactly 5 (the idle threshold, so *not* idle). -/
def c7halfValues : List ℚ := List.replicate 17 85 ++ List.replicate 151 5

/-- 336 hourly CPU samples: 34 samples (≈10%) in `[70, 95]` and 302
samples (≈90%) at the value `5 ∈ [1, 5]`, arranged so the two
168-sample halves coincide. -/
def c7cexCpu : List MetricPoint :=
  (c7halfValues ++ c7halfValues).enum.map (fun (p : ℕ × ℚ) => ⟨3600 * (p.1 : ℤ), p.2⟩)

/-- The claim-C7 counterexample snapshot: the CPU series above, every
other series empty, all flags false, age 0. -/
def c7cexSnapshot : CloudWatchMetrics :=
  { instance_id := "i-c7", instance_type := "t3.medium", cpu_utilization := c7cexCpu }

/-- 336 hourly CPU samples: 34 at 70 and 302 at 4 (strictly below the
idle threshold). -/
def c7witCpu : List MetricPoint :=
  ((List.replicate 34 (70 : ℚ) ++ List.replicate 302 4).enum).map
    (fun (p : ℕ × ℚ) => ⟨3600 * (p.1 : ℤ), p.2⟩)

/-- The amended-C7 witness snapshot. -/
def c7witSnapshot : CloudWatchMetrics :=
  { instance_id := "i-c7w", instance_type := "t3.medium", cpu_utilization := c7witCpu }

/-- 200 hourly samples at 85 when `index mod 20 < 3`, else 5 (the C8
scenario series). -/
def c8series : List MetricPoint :=
  (List.range 200).map (fun i => ⟨3600 * (i : ℤ), if i % 20 < 3 then 85 else 5⟩)


/-! # Theorems and supporting lemmas -/

/-! ## Correlation and periodicity lemmas -/

lemma centeredSq_nonneg (l : List ℚ) : 0 ≤ centeredSq l := by
  apply List.sum_nonneg
  intro x hx
  obtain ⟨v, _, rfl⟩ := List.mem_map.mp hx
  positivity

lemma corrGT7_iff (x y : List ℚ) :
    corrGT7 x y = true ↔ (7 / 10 : ℝ) < simple_correlation x y := by
  unfold corrGT7 simple_correlation
  by_cases hlen : x.length ≠ y.length ∨ x.length = 0
  · rw [if_pos hlen]
    constructor
    · intro h
      simp only [Bool.and_eq_true, Bool.not_eq_true', decide_eq_false_iff_not] at h
      exact absurd hlen h.1.1.1
    · intro h; norm_num at h
  · by_cases hz : centeredSq x = 0 ∨ centeredSq y = 0
    · rw [if_neg hlen, if_pos hz]
      constructor
      · intro h
        simp only [Bool.and_eq_true, Bool.not_eq_true', decide_eq_false_iff_not] at h
        exact absurd hz h.1.1.2
      · intro h; norm_num at h
    · push_neg at hz
      have hax : 0 < centeredSq x := lt_of_le_of_ne (centeredSq_nonneg x) (Ne.symm hz.1)
      have hay : 0 < centeredSq y := lt_of_le_of_ne (centeredSq_nonneg y) (Ne.symm hz.2)
      have hA : (0 : ℝ) < ((centeredSq x : ℚ) : ℝ) := by exact_mod_cast hax
      have hB : (0 : ℝ) < ((centeredSq y : ℚ) : ℝ) := by exact_mod_cast hay
      have hSpos : 0 < Real.sqrt (centeredSq x) * Real.sqrt (centeredSq y) :=
        mul_pos (Real.sqrt_pos.mpr hA) (Real.sqrt_pos.mpr hB)
      have hS2 : (Real.sqrt (centeredSq x) * Real.sqrt (centeredSq y)) ^ 2
          = ((centeredSq x : ℚ) : ℝ) * ((centeredSq y : ℚ) : ℝ) := by
        rw [mul_pow, Real.sq_sqrt hA.le, Real.sq_sqrt hB.le]
      have key : (7 / 10 : ℝ) <
            ((crossSum x y : ℚ) : ℝ) / (Real.sqrt (centeredSq x) * Real.sqrt (centeredSq y)) ↔
          0 < crossSum x y ∧ 49 * (centeredSq x * centeredSq y) < 100 * crossSum x y ^ 2 := by
        rw [lt_div_iff₀ hSpos]
        constructor
        · intro h
          have hC : (0 : ℝ) < ((crossSum x y : ℚ) : ℝ) := lt_trans (by positivity) h
          have h2 : (49 : ℝ) * (((centeredSq x : ℚ) : ℝ) * ((centeredSq y : ℚ) : ℝ)) <
              100 * ((crossSum x y : ℚ) : ℝ) ^ 2 := by
            nlinarith [mul_self_lt_mul_self
              (by positivity :
                (0:ℝ) ≤ 7 / 10 * (Real.sqrt (centeredSq x) * Real.sqrt (centeredSq y))) h]
          exact ⟨by exact_mod_cast hC, by exact_mod_cast h2⟩
        · rintro ⟨h1, h2⟩
          have h1R : (0 : ℝ) < ((crossSum x y : ℚ) : ℝ) := by exact_mod_cast h1
          have h2R : (49 : ℝ) * (((centeredSq x : ℚ) : ℝ) * ((centeredSq y : ℚ) : ℝ)) <
              100 * ((crossSum x y : ℚ) : ℝ) ^ 2 := by exact_mod_cast h2
          nlinarith [mul_pos h1R hSpos, hS2]
      rw [if_neg hlen, if_neg (by tauto : ¬(centeredSq x = 0 ∨ centeredSq y = 0)), key]
      simp only [Bool.and_eq_true, Bool.not_eq_true', decide_eq_false_iff_not, decide_eq_true_eq]
      constructor
      · rintro ⟨⟨⟨-, -⟩, h1⟩, h2⟩
        exact ⟨h1, h2⟩
      · rintro ⟨h1, h2⟩
        exact ⟨⟨⟨hlen, by tauto⟩, h1⟩, h2⟩

private lemma sum_zip_self (l : List ℚ) (m : ℚ) :
    ((l.zip l).map (fun p => (p.1 - m) * (p.2 - m))).sum
      = (l.map (fun v => (v - m) ^ 2)).sum := by
  induction l with
  | nil => rfl
  | cons a t ih => simp [List.zip_cons_cons, ih]; ring

lemma crossSum_self (x : List ℚ) : crossSum x x = centeredSq x := by
  unfold crossSum centeredSq
  exact sum_zip_self x (meanQ x)

lemma centeredSq_eq_zero_nil : centeredSq ([] : List ℚ) = 0 := by simp [centeredSq]

/-- Identical windows correlate at exactly `1` (when the variance is
non-zero). -/
lemma simple_correlation_self (x : List ℚ) (hx : centeredSq x ≠ 0) :
    simple_correlation x x = 1 := by
  have hne : x.length ≠ 0 := by
    intro h
    exact hx (by rw [List.length_eq_zero.mp h]; exact centeredSq_eq_zero_nil)
  unfold simple_correlation
  rw [if_neg (by tauto), if_neg (by tauto), crossSum_self]
  have hS : (0 : ℝ) ≤ ((centeredSq x : ℚ) : ℝ) := by exact_mod_cast centeredSq_nonneg x
  rw [Real.mul_self_sqrt hS]
  exact div_self (by exact_mod_cast hx)

private lemma sum_map_const_sub (l : List ℚ) (c : ℚ) :
    (l.map (fun v => c - v)).sum = l.length * c - l.sum := by
  induction l with
  | nil => simp
  | cons a t ih => simp [ih]; ring

lemma meanQ_map_const_sub (l : List ℚ) (c : ℚ) (h : l ≠ []) :
    meanQ (l.map (fun v => c - v)) = c - meanQ l := by
  have hn : (l.length : ℚ) ≠ 0 := by
    simp [List.length_eq_zero]
    exact h
  unfold meanQ
  rw [List.length_map, sum_map_const_sub]
  field_simp
  ring

lemma centeredSq_map_const_sub (l : List ℚ) (c : ℚ) (h : l ≠ []) :
    centeredSq (l.map (fun v => c - v)) = centeredSq l := by
  unfold centeredSq
  rw [meanQ_map_const_sub l c h, List.map_map]
  apply congrArg
  apply List.map_congr_left
  intro a _
  simp only [Function.comp_apply]
  ring

private lemma zip_map_self (l : List ℚ) (f : ℚ → ℚ) :
    l.zip (l.map f) = l.map (fun a => (a, f a)) := by
  induction l with
  | nil => rfl
  | cons a t ih => simp [List.zip_cons_cons, ih]

private lemma sum_map_neg' (l : List ℚ) (f : ℚ → ℚ) :
    (l.map (fun a => -(f a))).sum = -((l.map f).sum) := by
  induction l with
  | nil => simp
  | cons a t ih => simp [ih]; ring

lemma crossSum_map_const_sub (l : List ℚ) (c : ℚ) (h : l ≠ []) :
    crossSum l (l.map (fun v => c - v)) = -(centeredSq l) := by
  unfold crossSum centeredSq
  rw [meanQ_map_const_sub l c h, zip_map_self]
  rw [List.map_map]
  have : (fun a => ((a, c - a).1 - meanQ l) * ((a, c - a).2 - (c - meanQ l)))
      = fun (a : ℚ) => -((a - meanQ l) ^ 2) := by
    funext a
    simp only
    ring
  rw [show ((fun p : ℚ × ℚ => (p.1 - meanQ l) * (p.2 - (c - meanQ l))) ∘ fun a => (a, c - a))
        = fun (a : ℚ) => -((a - meanQ l) ^ 2) by funext a; simp only [Function.comp_apply]; ring]
  exact sum_map_neg' l _

/-- An "anti-phase" window `c - x` correlates with `x` at exactly `-1`. -/
lemma simple_correlation_anti (x : List ℚ) (c : ℚ) (hx : centeredSq x ≠ 0) :
    simple_correlation x (x.map (fun v => c - v)) = -1 := by
  have hne : x ≠ [] := by
    intro h
    exact hx (by rw [h]; exact centeredSq_eq_zero_nil)
  have hlen : x.length ≠ 0 := by simpa [List.length_eq_zero] using hne
  unfold simple_correlation
  rw [if_neg (by simp [List.length_map]; tauto),
      if_neg (by rw [centeredSq_map_const_sub x c hne]; tauto),
      crossSum_map_const_sub x c hne, centeredSq_map_const_sub x c hne]
  have hS : (0 : ℝ) ≤ ((centeredSq x : ℚ) : ℝ) := by exact_mod_cast centeredSq_nonneg x
  rw [Real.mul_self_sqrt hS]
  push_cast
  rw [neg_div]
  rw [div_self (by exact_mod_cast hx)]

lemma periodCorrelations_two (values : List ℚ) (period : ℕ)
    (h : period * 2 ≤ values.length) :
    periodCorrelations values period 2
      = [simple_correlation (values.take period) ((values.drop period).take period)] := by
  unfold periodCorrelations
  have : (1 + 1) * period ≤ values.length := by omega
  simp [List.range', List.takeWhile, this]

lemma lagConfirms_two_iff (values : List ℚ) (period : ℕ) :
    lagConfirms values period 2 ↔
      period * 2 ≤ values.length ∧
      (7 / 10 : ℝ) < simple_correlation (values.take period) ((values.drop period).take period) := by
  unfold lagConfirms
  constructor
  · rintro ⟨h1, -, h3⟩
    rw [periodCorrelations_two values period h1] at h3
    refine ⟨h1, ?_⟩
    simpa [meanR] using h3
  · rintro ⟨h1, h2⟩
    rw [periodCorrelations_two values period h1]
    exact ⟨h1, by simp, by simpa [meanR] using h2⟩

/-- Bridge: the computable Boolean detector decides the faithful
real-valued one at the default `min_periods = 2`. -/
lemma detect_periodic_patternB_iff (values : List ℚ) :
    detect_periodic_patternB values = true ↔ detect_periodic_pattern values 2 := by
  unfold detect_periodic_patternB detect_periodic_pattern
  rw [lagConfirms_two_iff values 24, lagConfirms_two_iff values 168]
  simp only [Bool.and_eq_true, Bool.or_eq_true, decide_eq_true_eq, corrGT7_iff]

/-! ## C9 — empty-series neutral defaults -/

/-- C9: on the empty CPU series every sub-analysis returns its neutral
default without failing: `idle_percent = 0`, `is_idle_dominant = False`,
`is_bursty = False` with zero bursts, `has_diurnal_pattern = False`,
`has_weekly_pattern = False`, and trend direction `"stable"`. -/
theorem c9_empty_series_neutral_defaults :
    (analyze_idle_pattern []).idle_percent = 0 ∧
    (analyze_idle_pattern []).is_idle_dominant = false ∧
    (analyze_burst_pattern []).is_bursty = false ∧
    (analyze_burst_pattern []).burst_count = 0 ∧
    (analyze_diurnal_pattern []).has_diurnal_pattern = false ∧
    (analyze_weekly_pattern []).has_weekly_pattern = false ∧
    (analyze_trend []).direction = "stable" :=
  ⟨rfl, rfl, rfl, rfl, rfl, rfl, rfl⟩

/-! ## C1 — overall confidence bounds of `PatternDetector.analyze` -/

lemma idle_percent_le_100 (ms : List MetricPoint) :
    (analyze_idle_pattern ms).idle_percent ≤ 100 := by
  unfold analyze_idle_pattern
  split
  · norm_num
  · rename_i hne
    simp only
    have hlen : 0 < (ms.length : ℚ) := by
      have : ms.length ≠ 0 := by simpa [List.length_eq_zero] using hne
      exact_mod_cast Nat.pos_of_ne_zero this
    have hcount : ((ms.countP (fun p => decide (p.value < 5)) : ℚ)) ≤ (ms.length : ℚ) := by
      exact_mod_cast List.countP_le_length _
    have hdiv : (ms.countP (fun p => decide (p.value < 5)) : ℚ) / ms.length ≤ 1 :=
      (div_le_one hlen).mpr hcount
    nlinarith

lemma sum_map_sq_nonneg (l : List ℕ) (f : ℕ → ℚ) : 0 ≤ (l.map (fun i => f i ^ 2)).sum := by
  apply List.sum_nonneg
  intro x hx
  obtain ⟨v, _, rfl⟩ := List.mem_map.mp hx
  positivity

lemma r_squared_le_one (ms : List MetricPoint) :
    (analyze_trend ms).r_squared ≤ 1 := by
  unfold analyze_trend
  split
  · norm_num
  · dsimp only
    split
    · norm_num
    · dsimp only
      apply max_le (by norm_num)
      split
      · rename_i htot
        exact sub_le_self 1 (div_nonneg (sum_map_sq_nonneg (List.range (dailyMeans ms).length) _) htot.le)
      · norm_num

lemma patternScores_le (idle : IdlePattern) (burst : BurstPattern) (diurnal : DiurnalPattern)
    (weekly : WeeklyPattern) (trend : TrendPattern)
    (hp : idle.idle_percent ≤ 100) (hr : trend.r_squared ≤ 1) :
    ∀ k, patternScores idle burst diurnal weekly trend k ≤ 11 / 10 := by
  intro k
  cases k <;> simp only [patternScores, burstyScoreOf] <;> (try split_ifs) <;>
    first
      | linarith
      | exact le_trans (min_le_right _ _) (by norm_num)

/-- The winning confidence of `_determine_primary_pattern` always lies in
`[0.4, 1.1]` (given the invariants `idle_percent ≤ 100` and `R² ≤ 1` of
the sub-analyses): the erratic fallback fixes it at `0.5`, and otherwise
it is a candidate score, at least `0.4` by the fallback test and at most
`0.8 + (100-70)/100 = 1.1` (each non-idle candidate is capped at `0.95`
or lower, while the idle-dominant score is not clamped). -/
lemma determine_primary_confidence_bounds (idle : IdlePattern) (burst : BurstPattern)
    (diurnal : DiurnalPattern) (weekly : WeeklyPattern) (trend : TrendPattern)
    (hp : idle.idle_percent ≤ 100) (hr : trend.r_squared ≤ 1) :
    2 / 5 ≤ (determine_primary_pattern idle burst diurnal weekly trend).2 ∧
    (determine_primary_pattern idle burst diurnal weekly trend).2 ≤ 11 / 10 := by
  unfold determine_primary_pattern
  dsimp only
  split
  · exact ⟨by norm_num, by norm_num⟩
  · rename_i hge
    exact ⟨not_lt.mp hge, patternScores_le idle burst diurnal weekly trend hp hr _⟩

lemma analyze_confidence_eq (instance_id : String) (cpu : List MetricPoint)
    (mem : Option (List MetricPoint)) :
    (analyze instance_id cpu mem).confidence =
      (determine_primary_pattern (analyze_idle_pattern cpu) (analyze_burst_pattern cpu)
        (analyze_diurnal_pattern cpu) (analyze_weekly_pattern cpu) (analyze_trend cpu)).2 := rfl

/-- C1 counterexample: on the one-point CPU series at value 0 the idle
analysis reports 100% idle time, the unclamped idle-dominant score
`0.8 + (100 - 70)/100 = 1.1` wins, and the returned overall confidence
is `1.1 > 1` — the claimed clamp of the confidence to `[0,1]` fails. -/
theorem c1_counterexample_confidence_exceeds_one :
    (analyze "i-0" [⟨0, 0⟩] none).confidence = 11 / 10 ∧
    1 < (analyze "i-0" [⟨0, 0⟩] none).confidence := by
  refine ⟨by with_unfolding_all decide, by with_unfolding_all decide⟩

/-- C1 (amended): for every input to `PatternDetector.analyze` the
overall confidence lies in `[0.4, 1.1]`.  The `[0,1]` clamp claimed by
the spec does not hold: the idle-dominant score
`0.8 + (idle_percent - 70)/100` is the one candidate score *not*
subjected to a cap, and it reaches `1.1` at 100% idle time; every other
candidate score is capped at `0.95` or lower, and the erratic fallback
yields `0.5`. -/
theorem c1_amended_confidence_bounds (instance_id : String) (cpu : List MetricPoint)
    (mem : Option (List MetricPoint)) :
    2 / 5 ≤ (analyze instance_id cpu mem).confidence ∧
    (analyze instance_id cpu mem).confidence ≤ 11 / 10 := by
  rw [analyze_confidence_eq]
  exact determine_primary_confidence_bounds _ _ _ _ _ (idle_percent_le_100 cpu)
    (r_squared_le_one cpu)

/-! ## C2 — which windows periodicity detection actually compares -/

lemma wBlock_length : wBlock.length = 24 := rfl

lemma wBlock_centeredSq_ne : centeredSq wBlock ≠ 0 := by with_unfolding_all decide

lemma c2series_eq : c2series = wBlock ++ (wBlock ++ wBlock.map (fun v => 2 - v)) := by
  unfold c2series
  rw [List.append_assoc]

lemma c2series_take24 : c2series.take 24 = wBlock := by
  rw [c2series_eq, ← wBlock_length, List.take_left]

lemma c2series_drop24 : c2series.drop 24 = wBlock ++ wBlock.map (fun v => 2 - v) := by
  rw [c2series_eq, ← wBlock_length, List.drop_left]

lemma c2series_drop24_take24 : (c2series.drop 24).take 24 = wBlock := by
  rw [c2series_drop24, ← wBlock_length, List.take_left]

lemma c2series_drop48_take24 : (c2series.drop 48).take 24 = wBlock.map (fun v => 2 - v) := by
  have h : c2series.drop 48 = wBlock.map (fun v => 2 - v) := by
    have h48 : (wBlock ++ wBlock).length = 48 := rfl
    rw [show c2series = (wBlock ++ wBlock) ++ wBlock.map (fun v => 2 - v) from rfl,
        ← h48, List.drop_left]
  rw [h]
  have : (wBlock.map (fun v => 2 - v)).length = 24 := rfl
  rw [← this, List.take_length]

/-- C2 counterexample: on the 72-hour series whose second 24-window
repeats the first but whose third is in anti-phase, the code's detection
(which only ever correlates with the *second* window — `min_periods`
defaults to 2) reports periodicity, while the spec's described
all-subsequent-windows mean is `(1 + (-1))/2 = 0 < 0.7` and reports
none. -/
theorem c2_counterexample_second_window_only :
    detect_periodic_pattern c2series 2 ∧ ¬ detect_periodic_specModel c2series := by
  constructor
  · exact (detect_periodic_patternB_iff c2series).mp (by with_unfolding_all decide)
  · rintro (⟨-, h⟩ | ⟨h, -⟩)
    · rw [show c2series.length / 24 - 1 = 2 from rfl,
          show List.range' 1 2 = [1, 2] from rfl] at h
      simp only [List.map_cons, List.map_nil, one_mul] at h
      rw [show (2 : ℕ) * 24 = 48 from rfl, c2series_take24, c2series_drop24_take24,
          c2series_drop48_take24, simple_correlation_self wBlock wBlock_centeredSq_ne,
          simple_correlation_anti wBlock 2 wBlock_centeredSq_ne] at h
      norm_num [meanR] at h
    · norm_num [c2series, wBlock] at h

/-- C2 (amended): with the default `min_periods = 2` (the only value the
source ever uses), periodicity detection compares the first lag-window
only with the *second* one: it returns true iff, for lag 24 (resp. 168),
the series has at least two full lag-windows and the single Pearson
correlation between the first and second window exceeds 0.7. -/
theorem c2_amended_detection_uses_second_window (values : List ℚ) :
    detect_periodic_pattern values 2 ↔
      ((48 ≤ values.length ∧
          (7 / 10 : ℝ) < simple_correlation (values.take 24) ((values.drop 24).take 24)) ∨
       (336 ≤ values.length ∧
          (7 / 10 : ℝ) < simple_correlation (values.take 168) ((values.drop 168).take 168))) := by
  unfold detect_periodic_pattern
  rw [lagConfirms_two_iff values 24, lagConfirms_two_iff values 168]
  constructor
  · rintro ⟨h48, ⟨h1, hc⟩ | ⟨h1, hc⟩⟩
    · exact Or.inl ⟨by omega, hc⟩
    · exact Or.inr ⟨by omega, hc⟩
  · rintro (⟨h1, hc⟩ | ⟨h1, hc⟩)
    · exact ⟨h1, Or.inl ⟨by omega, hc⟩⟩
    · exact ⟨by omega, Or.inr ⟨by omega, hc⟩⟩

/-! ## C3 — repeating an arbitrary 24-point block -/

/-- C3 counterexample: the constant block of 24 samples at value 5,
repeated 3 times, does *not* yield periodicity detection true: both
windows have zero variance, `_simple_correlation` is defined to return
`0.0` there, and `0 < 0.7`.  (`c3series` is by definition the 3-fold
repetition of a 24-point block, so the claim's hypotheses hold.) -/
theorem c3_counterexample_constant_block :
    c3series = (List.replicate 3 (List.replicate 24 (5 : ℚ))).flatten ∧
    ¬ detect_periodic_pattern c3series 2 := by
  refine ⟨rfl, fun hd => ?_⟩
  have hb : detect_periodic_patternB c3series = false := by with_unfolding_all decide
  rw [← detect_periodic_patternB_iff] at hd
  rw [hb] at hd
  exact Bool.false_ne_true hd

/-- C3 (amended): repeating a 24-point block at least 3 times yields
periodicity detection true *provided the block is not constant*
(`centeredSq b ≠ 0`, i.e. some element differs from the block mean);
for a constant block every correlation is defined as `0` and detection
fails. -/
theorem c3_amended_repeated_nonconstant_block (b : List ℚ) (k : ℕ)
    (hb : b.length = 24) (hk : 3 ≤ k) (hnc : centeredSq b ≠ 0) :
    detect_periodic_pattern ((List.replicate k b).flatten) 2 := by
  obtain ⟨k2, rfl⟩ : ∃ k2, k = k2 + 2 := ⟨k - 2, by omega⟩
  have hflat : (List.replicate (k2 + 2) b).flatten = b ++ (b ++ (List.replicate k2 b).flatten) := by
    rw [List.replicate_succ, List.replicate_succ, List.flatten_cons, List.flatten_cons]
  have hlen : 48 ≤ ((List.replicate (k2 + 2) b).flatten).length := by
    rw [hflat]
    simp [hb]
    omega
  refine ⟨hlen, Or.inl ?_⟩
  rw [lagConfirms_two_iff]
  refine ⟨by omega, ?_⟩
  have ht : ((List.replicate (k2 + 2) b).flatten).take 24 = b := by
    rw [hflat, ← hb, List.take_left]
  have hd : (((List.replicate (k2 + 2) b).flatten).drop 24).take 24 = b := by
    rw [hflat, ← hb, List.drop_left, List.take_left]
  rw [ht, hd, simple_correlation_self b hnc]
  norm_num

/-- C3 witness: the non-constant block `wBlock`, repeated 3 times, is
detected as periodic. -/
theorem c3_amended_witness :
    detect_periodic_pattern ((List.replicate 3 wBlock).flatten) 2 :=
  c3_amended_repeated_nonconstant_block wBlock 3 rfl (by norm_num) wBlock_centeredSq_ne

/-! ## C4 — memory-leak flagging conditions -/

lemma regressionDen_pos (n : ℕ) (h : 3 ≤ n) : 0 < regressionDen n := by
  unfold regressionDen
  have h0 : (0 : ℕ) ∈ List.range n := List.mem_range.mpr (by omega)
  have hmem : ((0 : ℚ) - ((n : ℚ) - 1) / 2) ^ 2 ∈
      (List.range n).map (fun (i : ℕ) => ((i : ℚ) - ((n : ℚ) - 1) / 2) ^ 2) := by
    have := List.mem_map_of_mem (fun (i : ℕ) => ((i : ℚ) - ((n : ℚ) - 1) / 2) ^ 2) h0
    simpa using this
  have hterm : 0 < ((0 : ℚ) - ((n : ℚ) - 1) / 2) ^ 2 := by
    have hn : (3 : ℚ) ≤ (n : ℚ) := by exact_mod_cast h
    have : ((0 : ℚ) - ((n : ℚ) - 1) / 2) ^ 2 = (((n : ℚ) - 1) / 2) ^ 2 := by ring
    rw [this]
    have hb : 0 < ((n : ℚ) - 1) / 2 := by linarith
    exact pow_pos hb 2
  have hle := List.single_le_sum
    (by intro x hx; obtain ⟨v, _, rfl⟩ := List.mem_map.mp hx; positivity) _ hmem
  linarith

/-- C4 counterexample: a memory series of three samples on three
distinct calendar days with daily means `0, 50, 100` has OLS slope
`50 > 1`, yet no leak is flagged — `_detect_memory_leak` additionally
requires at least 48 samples before it even aggregates by day. -/
theorem c4_counterexample_sample_count_gate :
    3 ≤ (dailyMeans c4series).length ∧
    1 < regressionSlope (dailyMeans c4series) ∧
    (analyze_memory_pattern c4series).has_memory_leak = false := by
  refine ⟨by with_unfolding_all decide, by with_unfolding_all decide,
    by with_unfolding_all decide⟩

/-- C4 (amended): for a memory series with at least 48 samples (the
additional sample-count gate of `_detect_memory_leak`) spanning at
least 3 distinct calendar days, a leak is flagged iff the OLS slope of
day-index versus daily mean exceeds `1.0` %/day (the `> 0.5` reporting
cut is subsumed by the `> 1.0` threshold). -/
theorem c4_amended_leak_iff_slope (metrics : List MetricPoint)
    (h48 : 48 ≤ metrics.length) (hdays : 3 ≤ (dailyMeans metrics).length) :
    ((analyze_memory_pattern metrics).has_memory_leak = true ↔
      1 < regressionSlope (dailyMeans metrics)) := by
  have hne : metrics ≠ [] := by
    intro h
    rw [h] at h48
    simp at h48
  unfold analyze_memory_pattern
  rw [if_neg hne]
  dsimp only
  unfold detect_memory_leak
  rw [if_neg (by omega : ¬ metrics.length < 48)]
  dsimp only
  rw [if_neg (by omega : ¬ (dailyMeans metrics).length < 3),
      if_neg (ne_of_gt (regressionDen_pos _ hdays) : regressionDen (dailyMeans metrics).length ≠ 0)]
  by_cases hs : 1 / 2 < regressionSlope (dailyMeans metrics)
  · rw [if_pos hs]
    simp [optGT]
  · rw [if_neg hs]
    simp only [optGT, Bool.false_eq_true, false_iff]
    push_neg at hs ⊢
    linarith

/-- C4 witness: 48 memory samples over three days with daily means
`0, 50, 100` (slope 50) are flagged as a leak. -/
theorem c4_amended_witness : (analyze_memory_pattern c4okSeries).has_memory_leak = true :=
  (c4_amended_leak_iff_slope c4okSeries (by with_unfolding_all decide)
    (by with_unfolding_all decide)).mpr (by with_unfolding_all decide)

/-! ## C5 — tie-breaking in `_determine_primary_pattern` -/

lemma maxScoreOf_eq (s : PatternType → ℚ) :
    maxScoreOf s =
      max (max (max (max (max (max (max (s PatternType.idle_dominant) (s PatternType.bursty))
        (s PatternType.steady_state)) (s PatternType.diurnal)) (s PatternType.weekly))
        (s PatternType.batch)) (s PatternType.growing)) (s PatternType.declining) := rfl

lemma le_maxScoreOf (s : PatternType → ℚ) : ∀ k ∈ dictOrder, s k ≤ maxScoreOf s := by
  intro k hk
  fin_cases hk <;> rw [maxScoreOf_eq] <;> simp [le_max_iff, le_refl]

lemma maxScoreOf_attained (s : PatternType → ℚ) : ∃ k ∈ dictOrder, s k = maxScoreOf s := by
  rw [maxScoreOf_eq]
  rcases max_choice (max (max (max (max (max (max (s PatternType.idle_dominant)
      (s PatternType.bursty)) (s PatternType.steady_state)) (s PatternType.diurnal))
      (s PatternType.weekly)) (s PatternType.batch)) (s PatternType.growing))
      (s PatternType.declining) with h | h <;> rw [h]
  · rcases max_choice (max (max (max (max (max (s PatternType.idle_dominant)
        (s PatternType.bursty)) (s PatternType.steady_state)) (s PatternType.diurnal))
        (s PatternType.weekly)) (s PatternType.batch)) (s PatternType.growing) with h | h <;> rw [h]
    · rcases max_choice (max (max (max (max (s PatternType.idle_dominant)
          (s PatternType.bursty)) (s PatternType.steady_state)) (s PatternType.diurnal))
          (s PatternType.weekly)) (s PatternType.batch) with h | h <;> rw [h]
      · rcases max_choice (max (max (max (s PatternType.idle_dominant)
            (s PatternType.bursty)) (s PatternType.steady_state)) (s PatternType.diurnal))
            (s PatternType.weekly) with h | h <;> rw [h]
        · rcases max_choice (max (max (s PatternType.idle_dominant)
              (s PatternType.bursty)) (s PatternType.steady_state)) (s PatternType.diurnal)
              with h | h <;> rw [h]
          · rcases max_choice (max (s PatternType.idle_dominant) (s PatternType.bursty))
                (s PatternType.steady_state) with h | h <;> rw [h]
            · rcases max_choice (s PatternType.idle_dominant) (s PatternType.bursty)
                  with h | h <;> rw [h]
              · exact ⟨PatternType.idle_dominant, by simp [dictOrder], rfl⟩
              · exact ⟨PatternType.bursty, by simp [dictOrder], rfl⟩
            · exact ⟨PatternType.steady_state, by simp [dictOrder], rfl⟩
          · exact ⟨PatternType.diurnal, by simp [dictOrder], rfl⟩
        · exact ⟨PatternType.weekly, by simp [dictOrder], rfl⟩
      · exact ⟨PatternType.batch, by simp [dictOrder], rfl⟩
    · exact ⟨PatternType.growing, by simp [dictOrder], rfl⟩
  · exact ⟨PatternType.declining, by simp [dictOrder], rfl⟩

lemma bursty_zero_of_steady_pos (idle : IdlePattern) (burst : BurstPattern)
    (diurnal : DiurnalPattern) (weekly : WeeklyPattern) (trend : TrendPattern)
    (h : 0 < patternScores idle burst diurnal weekly trend PatternType.steady_state) :
    patternScores idle burst diurnal weekly trend PatternType.bursty = 0 := by
  simp only [patternScores] at h ⊢
  split_ifs at h with hc
  · simp [burstyScoreOf, hc.2.1]
  · norm_num at h

lemma pick_fold_of_le (s : PatternType → ℚ) (l : List PatternType) (b : PatternType)
    (h : ∀ x ∈ l, s x ≤ s b) :
    l.foldl (fun b k => if s b < s k then k else b) b = b := by
  induction l generalizing b with
  | nil => rfl
  | cons x xs ih =>
      rw [List.foldl_cons, if_neg (not_lt.mpr (h x (List.mem_cons_self x xs)))]
      exact ih b (fun y hy => h y (List.mem_cons_of_mem x hy))

lemma pick_fold_mem (s : PatternType → ℚ) (l : List PatternType) (b : PatternType) :
    l.foldl (fun b k => if s b < s k then k else b) b = b ∨
    l.foldl (fun b k => if s b < s k then k else b) b ∈ l := by
  induction l generalizing b with
  | nil => exact Or.inl rfl
  | cons x xs ih =>
      rw [List.foldl_cons]
      rcases ih (if s b < s x then x else b) with h | h
      · rw [h]
        split
        · exact Or.inr (List.mem_cons_self x xs)
        · exact Or.inl rfl
      · exact Or.inr (List.mem_cons_of_mem x h)

lemma pick_fold_through (s : PatternType → ℚ) (l₁ l₂ : List PatternType)
    (k b : PatternType) (h₁ : ∀ x ∈ b :: l₁, s x < s k) (h₂ : ∀ x ∈ l₂, s x ≤ s k) :
    (l₁ ++ k :: l₂).foldl (fun b k => if s b < s k then k else b) b = k := by
  rw [List.foldl_append, List.foldl_cons]
  have hrk : s (l₁.foldl (fun b k => if s b < s k then k else b) b) < s k := by
    rcases pick_fold_mem s l₁ b with h | h
    · rw [h]; exact h₁ b (List.mem_cons_self b l₁)
    · exact h₁ _ (List.mem_cons_of_mem b h)
  rw [if_pos hrk]
  exact pick_fold_of_le s l₂ k h₂

/-- C5 counterexample: with every candidate score equal to `0` (all
flags off; peak-to-trough ratio 2 also disables the steady-state
candidate), all eight candidates tie at the maximal score `0`, the first
in enumeration order being idle-dominant — but the function returns the
erratic fallback instead, because the tied maximum lies below `0.4`. -/
theorem c5_counterexample_zero_tie :
    patternScores idleNeutral burstNeutral (diurnalFlat 2) weeklyNeutral trendStable
        PatternType.idle_dominant =
      maxScoreOf (patternScores idleNeutral burstNeutral (diurnalFlat 2) weeklyNeutral trendStable) ∧
    patternScores idleNeutral burstNeutral (diurnalFlat 2) weeklyNeutral trendStable
        PatternType.steady_state =
      maxScoreOf (patternScores idleNeutral burstNeutral (diurnalFlat 2) weeklyNeutral trendStable) ∧
    (determine_primary_pattern idleNeutral burstNeutral (diurnalFlat 2) weeklyNeutral
        trendStable).1 = PatternType.erratic ∧
    enumFirstOf (patternScores idleNeutral burstNeutral (diurnalFlat 2) weeklyNeutral trendStable)
      = PatternType.idle_dominant ∧
    PatternType.erratic ≠ PatternType.idle_dominant := by
  refine ⟨by with_unfolding_all decide, by with_unfolding_all decide,
    by with_unfolding_all decide, by with_unfolding_all decide, by decide⟩

/-- C5 (amended): whenever the maximal candidate score is at least `0.4`
(so the erratic fallback does not fire), `_determine_primary_pattern`
selects the first pattern in `PatternType` declaration order attaining
the maximum — in particular enumeration order breaks exact ties.  This
holds although the `scores` dict enumerates `bursty` *before*
`steady_state` (the opposite of declaration order): those two can never
both attain a maximum `≥ 0.4`, because a positive steady-state score
requires `is_bursty` to be false, which zeroes the bursty score. -/
theorem c5_amended_enum_order_tie_break (idle : IdlePattern) (burst : BurstPattern)
    (diurnal : DiurnalPattern) (weekly : WeeklyPattern) (trend : TrendPattern)
    (hm : 2 / 5 ≤ maxScoreOf (patternScores idle burst diurnal weekly trend)) :
    (determine_primary_pattern idle burst diurnal weekly trend).1 =
      enumFirstOf (patternScores idle burst diurnal weekly trend) := by
  set s := patternScores idle burst diurnal weekly trend with hs
  set M := maxScoreOf s with hMdef
  have hle : ∀ k ∈ dictOrder, s k ≤ M := le_maxScoreOf s
  have hlt : ∀ x ∈ dictOrder, s x ≠ M → s x < M := fun x hx hne =>
    lt_of_le_of_ne (hle x hx) hne
  have hkey : pythonMaxKey s dictOrder =
      ([PatternType.bursty, PatternType.steady_state, PatternType.diurnal, PatternType.weekly,
        PatternType.batch, PatternType.growing, PatternType.declining]).foldl
        (fun b k => if s b < s k then k else b) PatternType.idle_dominant := rfl
  have hfinal : ∀ k, pythonMaxKey s dictOrder = k → s k = M →
      (determine_primary_pattern idle burst diurnal weekly trend).1 = k := by
    intro k hpick hval
    unfold determine_primary_pattern
    dsimp only
    rw [← hs, hpick, hval, if_neg (not_lt.mpr hm)]
  by_cases h1 : s PatternType.idle_dominant = M
  · have he : enumFirstOf s = PatternType.idle_dominant := by
      unfold enumFirstOf enumOrder
      rw [List.find?_cons_of_pos _ (by simp [h1, hMdef])]
      rfl
    rw [he]
    refine hfinal _ ?_ h1
    rw [hkey]
    apply pick_fold_of_le
    intro x hx
    rw [h1]
    exact hle x (by fin_cases hx <;> simp [dictOrder])
  · by_cases h2 : s PatternType.steady_state = M
    · have he : enumFirstOf s = PatternType.steady_state := by
        unfold enumFirstOf enumOrder
        rw [List.find?_cons_of_neg _ (by simp [h1, hMdef]),
            List.find?_cons_of_pos _ (by simp [h2, hMdef])]
        rfl
      rw [he]
      refine hfinal _ ?_ h2
      have hSpos : 0 < s PatternType.steady_state := by rw [h2]; linarith
      have hB : s PatternType.bursty = 0 :=
        bursty_zero_of_steady_pos idle burst diurnal weekly trend hSpos
      rw [hkey,
        show ([PatternType.bursty, PatternType.steady_state, PatternType.diurnal,
          PatternType.weekly, PatternType.batch, PatternType.growing, PatternType.declining]
          : List PatternType) =
          [PatternType.bursty] ++ PatternType.steady_state ::
            [PatternType.diurnal, PatternType.weekly, PatternType.batch, PatternType.growing,
             PatternType.declining] from rfl]
      apply pick_fold_through
      · intro x hx
        rw [h2]
        fin_cases hx
        · exact hlt _ (by simp [dictOrder]) h1
        · rw [hB]; linarith
      · intro x hx
        rw [h2]
        exact hle x (by fin_cases hx <;> simp [dictOrder])
    · by_cases h3 : s PatternType.bursty = M
      · have he : enumFirstOf s = PatternType.bursty := by
          unfold enumFirstOf enumOrder
          rw [List.find?_cons_of_neg _ (by simp [h1, hMdef]),
              List.find?_cons_of_neg _ (by simp [h2, hMdef]),
              List.find?_cons_of_pos _ (by simp [h3, hMdef])]
          rfl
        rw [he]
        refine hfinal _ ?_ h3
        rw [hkey,
          show ([PatternType.bursty, PatternType.steady_state, PatternType.diurnal,
            PatternType.weekly, PatternType.batch, PatternType.growing, PatternType.declining]
            : List PatternType) =
            [] ++ PatternType.bursty ::
              [PatternType.steady_state, PatternType.diurnal, PatternType.weekly,
               PatternType.batch, PatternType.growing, PatternType.declining] from rfl]
        apply pick_fold_through
        · intro x hx
          rw [h3]
          fin_cases hx
          · exact hlt _ (by simp [dictOrder]) h1
        · intro x hx
          rw [h3]
          exact hle x (by fin_cases hx <;> simp [dictOrder])
      · by_cases h4 : s PatternType.diurnal = M
        · have he : enumFirstOf s = PatternType.diurnal := by
            unfold enumFirstOf enumOrder
            rw [List.find?_cons_of_neg _ (by simp [h1, hMdef]),
                List.find?_cons_of_neg _ (by simp [h2, hMdef]),
                List.find?_cons_of_neg _ (by simp [h3, hMdef]),
                List.find?_cons_of_pos _ (by simp [h4, hMdef])]
            rfl
          rw [he]
          refine hfinal _ ?_ h4
          rw [hkey,
            show ([PatternType.bursty, PatternType.steady_state, PatternType.diurnal,
              PatternType.weekly, PatternType.batch, PatternType.growing, PatternType.declining]
              : List PatternType) =
              [PatternType.bursty, PatternType.steady_state] ++ PatternType.diurnal ::
                [PatternType.weekly, PatternType.batch, PatternType.growing,
                 PatternType.declining] from rfl]
          apply pick_fold_through
          · intro x hx
            rw [h4]
            fin_cases hx
            · exact hlt _ (by simp [dictOrder]) h1
            · exact hlt _ (by simp [dictOrder]) h3
            · exact hlt _ (by simp [dictOrder]) h2
          · intro x hx
            rw [h4]
            exact hle x (by fin_cases hx <;> simp [dictOrder])
        · by_cases h5 : s PatternType.weekly = M
          · have he : enumFirstOf s = PatternType.weekly := by
              unfold enumFirstOf enumOrder
              rw [List.find?_cons_of_neg _ (by simp [h1, hMdef]),
                  List.find?_cons_of_neg _ (by simp [h2, hMdef]),
                  List.find?_cons_of_neg _ (by simp [h3, hMdef]),
                  List.find?_cons_of_neg _ (by simp [h4, hMdef]),
                  List.find?_cons_of_pos _ (by simp [h5, hMdef])]
              rfl
            rw [he]
            refine hfinal _ ?_ h5
            rw [hkey,
              show ([PatternType.bursty, PatternType.steady_state, PatternType.diurnal,
                PatternType.weekly, PatternType.batch, PatternType.growing,
                PatternType.declining] : List PatternType) =
                [PatternType.bursty, PatternType.steady_state, PatternType.diurnal] ++
                  PatternType.weekly ::
                  [PatternType.batch, PatternType.growing, PatternType.declining] from rfl]
            apply pick_fold_through
            · intro x hx
              rw [h5]
              fin_cases hx
              · exact hlt _ (by simp [dictOrder]) h1
              · exact hlt _ (by simp [dictOrder]) h3
              · exact hlt _ (by simp [dictOrder]) h2
              · exact hlt _ (by simp [dictOrder]) h4
            · intro x hx
              rw [h5]
              exact hle x (by fin_cases hx <;> simp [dictOrder])
          · by_cases h6 : s PatternType.batch = M
            · have he : enumFirstOf s = PatternType.batch := by
                unfold enumFirstOf enumOrder
                rw [List.find?_cons_of_neg _ (by simp [h1, hMdef]),
                    List.find?_cons_of_neg _ (by simp [h2, hMdef]),
                    List.find?_cons_of_neg _ (by simp [h3, hMdef]),
                    List.find?_cons_of_neg _ (by simp [h4, hMdef]),
                    List.find?_cons_of_neg _ (by simp [h5, hMdef]),
                    List.find?_cons_of_pos _ (by simp [h6, hMdef])]
                rfl
              rw [he]
              refine hfinal _ ?_ h6
              rw [hkey,
                show ([PatternType.bursty, PatternType.steady_state, PatternType.diurnal,
                  PatternType.weekly, PatternType.batch, PatternType.growing,
                  PatternType.declining] : List PatternType) =
                  [PatternType.bursty, PatternType.steady_state, PatternType.diurnal,
                   PatternType.weekly] ++ PatternType.batch ::
                    [PatternType.growing, PatternType.declining] from rfl]
              apply pick_fold_through
              · intro x hx
                rw [h6]
                fin_cases hx
                · exact hlt _ (by simp [dictOrder]) h1
                · exact hlt _ (by simp [dictOrder]) h3
                · exact hlt _ (by simp [dictOrder]) h2
                · exact hlt _ (by simp [dictOrder]) h4
                · exact hlt _ (by simp [dictOrder]) h5
              · intro x hx
                rw [h6]
                exact hle x (by fin_cases hx <;> simp [dictOrder])
            · by_cases h7 : s PatternType.growing = M
              · have he : enumFirstOf s = PatternType.growing := by
                  unfold enumFirstOf enumOrder
                  rw [List.find?_cons_of_neg _ (by simp [h1, hMdef]),
                      List.find?_cons_of_neg _ (by simp [h2, hMdef]),
                      List.find?_cons_of_neg _ (by simp [h3, hMdef]),
                      List.find?_cons_of_neg _ (by simp [h4, hMdef]),
                      List.find?_cons_of_neg _ (by simp [h5, hMdef]),
                      List.find?_cons_of_neg _ (by simp [h6, hMdef]),
                      List.find?_cons_of_pos _ (by simp [h7, hMdef])]
                  rfl
                rw [he]
                refine hfinal _ ?_ h7
                rw [hkey,
                  show ([PatternType.bursty, PatternType.steady_state, PatternType.diurnal,
                    PatternType.weekly, PatternType.batch, PatternType.growing,
                    PatternType.declining] : List PatternType) =
                    [PatternType.bursty, PatternType.steady_state, PatternType.diurnal,
                     PatternType.weekly, PatternType.batch] ++ PatternType.growing ::
                      [PatternType.declining] from rfl]
                apply pick_fold_through
                · intro x hx
                  rw [h7]
                  fin_cases hx
                  · exact hlt _ (by simp [dictOrder]) h1
                  · exact hlt _ (by simp [dictOrder]) h3
                  · exact hlt _ (by simp [dictOrder]) h2
                  · exact hlt _ (by simp [dictOrder]) h4
                  · exact hlt _ (by simp [dictOrder]) h5
                  · exact hlt _ (by simp [dictOrder]) h6
                · intro x hx
                  rw [h7]
                  exact hle x (by fin_cases hx <;> simp [dictOrder])
              · by_cases h8 : s PatternType.declining = M
                · have he : enumFirstOf s = PatternType.declining := by
                    unfold enumFirstOf enumOrder
                    rw [List.find?_cons_of_neg _ (by simp [h1, hMdef]),
                        List.find?_cons_of_neg _ (by simp [h2, hMdef]),
                        List.find?_cons_of_neg _ (by simp [h3, hMdef]),
                        List.find?_cons_of_neg _ (by simp [h4, hMdef]),
                        List.find?_cons_of_neg _ (by simp [h5, hMdef]),
                        List.find?_cons_of_neg _ (by simp [h6, hMdef]),
                        List.find?_cons_of_neg _ (by simp [h7, hMdef]),
                        List.find?_cons_of_pos _ (by simp [h8, hMdef])]
                    rfl
                  rw [he]
                  refine hfinal _ ?_ h8
                  rw [hkey,
                    show ([PatternType.bursty, PatternType.steady_state, PatternType.diurnal,
                      PatternType.weekly, PatternType.batch, PatternType.growing,
                      PatternType.declining] : List PatternType) =
                      [PatternType.bursty, PatternType.steady_state, PatternType.diurnal,
                       PatternType.weekly, PatternType.batch, PatternType.growing] ++
                        PatternType.declining :: [] from rfl]
                  apply pick_fold_through
                  · intro x hx
                    rw [h8]
                    fin_cases hx
                    · exact hlt _ (by simp [dictOrder]) h1
                    · exact hlt _ (by simp [dictOrder]) h3
                    · exact hlt _ (by simp [dictOrder]) h2
                    · exact hlt _ (by simp [dictOrder]) h4
                    · exact hlt _ (by simp [dictOrder]) h5
                    · exact hlt _ (by simp [dictOrder]) h6
                    · exact hlt _ (by simp [dictOrder]) h7
                  · intro x hx
                    exact absurd hx (List.not_mem_nil x)
                · exfalso
                  obtain ⟨k, hk, hkM⟩ := maxScoreOf_attained s
                  fin_cases hk
                  · exact h1 hkM
                  · exact h3 hkM
                  · exact h2 hkM
                  · exact h4 hkM
                  · exact h5 hkM
                  · exact h6 hkM
                  · exact h7 hkM
                  · exact h8 hkM

/-- C5 witness for the amended tie-break theorem: on all-neutral
sub-analysis records the steady-state candidate scores `0.7 ≥ 0.4` and
is selected, matching the enumeration-order-first maximal candidate. -/
theorem c5_amended_witness :
    (determine_primary_pattern idleNeutral burstNeutral (diurnalFlat 1) weeklyNeutral
      trendStable).1 =
      enumFirstOf (patternScores idleNeutral burstNeutral (diurnalFlat 1) weeklyNeutral
        trendStable) :=
  c5_amended_enum_order_tie_break idleNeutral burstNeutral (diurnalFlat 1) weeklyNeutral
    trendStable (by set_option maxHeartbeats 2000000 in with_unfolding_all decide)

/-! ## C8 — the (index mod 20) burst scenario -/

/-- C8: on 200 hourly samples at 85 when `index mod 20 < 3` and 5
otherwise, the burst analysis finds the ten 3-hour runs above the
threshold `max(2 * percentile25, 20) = 20` (baseline 5), each longer
than 5 minutes, with intensity `85/5 = 17 > 2` and 17-hour quiet gaps:
`burst_count = 10 > 0` and `is_bursty = True`. -/
theorem c8_burst_scenario :
    percentileQ (c8series.map (fun p => p.value)) 25 = 5 ∧
    (analyze_burst_pattern c8series).burst_count = 10 ∧
    0 < (analyze_burst_pattern c8series).burst_count ∧
    (analyze_burst_pattern c8series).is_bursty = true := by
  have hc : (analyze_burst_pattern c8series).burst_count = 10 := by with_unfolding_all decide
  refine ⟨by with_unfolding_all decide, hc, by rw [hc]; norm_num, by with_unfolding_all decide⟩

/-! ## Stable descending sort lemmas (for C6, C7, C10) -/

lemma insertDescPair_perm (a : WorkloadClassification × ℚ)
    (l : List (WorkloadClassification × ℚ)) : (insertDescPair a l).Perm (a :: l) := by
  induction l with
  | nil => exact List.Perm.refl _
  | cons b bs ih =>
      unfold insertDescPair
      split
      · exact List.Perm.refl _
      · exact (ih.cons b).trans (List.Perm.swap a b bs)

lemma sortDescPairs_perm (l : List (WorkloadClassification × ℚ)) :
    (sortDescPairs l).Perm l := by
  induction l with
  | nil => exact List.Perm.refl _
  | cons a as ih =>
      unfold sortDescPairs at ih ⊢
      rw [List.foldr_cons]
      exact (insertDescPair_perm a _).trans (ih.cons a)

lemma mem_insertDescPair {x a : WorkloadClassification × ℚ}
    {l : List (WorkloadClassification × ℚ)} :
    x ∈ insertDescPair a l ↔ x = a ∨ x ∈ l := by
  constructor
  · intro hx
    have := (insertDescPair_perm a l).mem_iff.mp hx
    simpa using this
  · intro hx
    apply (insertDescPair_perm a l).mem_iff.mpr
    simpa using hx

lemma insertDescPair_pairwise (a : WorkloadClassification × ℚ)
    (l : List (WorkloadClassification × ℚ))
    (h : l.Pairwise (fun x y => y.2 ≤ x.2)) :
    (insertDescPair a l).Pairwise (fun x y => y.2 ≤ x.2) := by
  induction l with
  | nil => simp [insertDescPair]
  | cons b bs ih =>
      unfold insertDescPair
      rcases List.pairwise_cons.mp h with ⟨hb, hbs⟩
      split
      · rename_i hba
        refine List.pairwise_cons.mpr ⟨?_, h⟩
        intro y hy
        rcases List.mem_cons.mp hy with rfl | hy
        · exact hba
        · exact le_trans (hb y hy) hba
      · rename_i hba
        refine List.pairwise_cons.mpr ⟨?_, ih hbs⟩
        intro y hy
        rcases mem_insertDescPair.mp hy with rfl | hy
        · exact le_of_lt (lt_of_not_le hba)
        · exact hb y hy

lemma sortDescPairs_pairwise (l : List (WorkloadClassification × ℚ)) :
    (sortDescPairs l).Pairwise (fun x y => y.2 ≤ x.2) := by
  induction l with
  | nil => simp [sortDescPairs]
  | cons a as ih =>
      unfold sortDescPairs at ih ⊢
      rw [List.foldr_cons]
      exact insertDescPair_pairwise a _ ih

/-! ## C6 / C10 — invariants of `WorkloadClassifier.classify` -/

lemma score_keep_ec2_ge (m : CloudWatchMetrics) (st : Stats) :
    3 / 10 ≤ score_keep_ec2 m st := by
  unfold score_keep_ec2
  dsimp only
  apply le_min _ (by norm_num)
  split_ifs <;> norm_num

lemma sortDesc_headD_ge (l : List (WorkloadClassification × ℚ))
    (x : WorkloadClassification × ℚ) (hx : x ∈ l) :
    x.2 ≤ ((sortDescPairs l).headD (WorkloadClassification.keep_ec2, 0)).2 := by
  have hmem : x ∈ sortDescPairs l := (sortDescPairs_perm l).mem_iff.mpr hx
  obtain ⟨hd, tl, hcons⟩ : ∃ hd tl, sortDescPairs l = hd :: tl := by
    cases hsort : sortDescPairs l with
    | nil => rw [hsort] at hmem; exact absurd hmem (List.not_mem_nil x)
    | cons hd tl => exact ⟨hd, tl, rfl⟩
  have hpair := sortDescPairs_pairwise l
  rw [hcons] at hpair hmem ⊢
  simp only [List.headD_cons]
  rcases List.mem_cons.mp hmem with rfl | hmemtl
  · exact le_refl _
  · exact (List.pairwise_cons.mp hpair).1 x hmemtl

/-- The confidence returned by `classify` always lies in `[0.3, 1]`:
the keep-as-is candidate scores at least its base `0.3`, the winner is
the maximum of the four scores, and the final `min(score, 1)` caps it at
one. -/
lemma classify_confidence_bounds (m : CloudWatchMetrics) :
    3 / 10 ≤ (classify m).confidence ∧ (classify m).confidence ≤ 1 := by
  unfold classify
  dsimp only
  constructor
  · apply le_min _ (by norm_num)
    refine le_trans (score_keep_ec2_ge m (compute_statistics m)) ?_
    exact sortDesc_headD_ge _ (WorkloadClassification.keep_ec2,
      score_keep_ec2 m (compute_statistics m)) (by simp)
  · exact min_le_right _ _

/-- C10: the classification confidence is bounded below by the
keep-as-is base score `0.3` for every snapshot (including all-empty
ones), so it lies in `[0.3, 1]` — strictly tighter than the spec's
`[0,1]`. -/
theorem c10_confidence_at_least_base (m : CloudWatchMetrics) :
    3 / 10 ≤ (classify m).confidence ∧ (classify m).confidence ≤ 1 :=
  classify_confidence_bounds m

/-- C6: for every snapshot, `classify` returns confidence in `[0,1]`;
the primary classification is exactly one of the four candidates; every
listed alternative differs from the primary and has score strictly
greater than `0.3`; and the alternatives are sorted descending by
score. -/
theorem c6_classification_result_invariants (m : CloudWatchMetrics) :
    (0 ≤ (classify m).confidence ∧ (classify m).confidence ≤ 1) ∧
    ((classify m).classification = WorkloadClassification.lambda_candidate ∨
     (classify m).classification = WorkloadClassification.fargate_candidate ∨
     (classify m).classification = WorkloadClassification.spot_candidate ∨
     (classify m).classification = WorkloadClassification.keep_ec2) ∧
    (∀ p ∈ (classify m).alternative_classifications,
        p.1 ≠ (classify m).classification ∧ 3 / 10 < p.2) ∧
    (classify m).alternative_classifications.Pairwise (fun x y => y.2 ≤ x.2) := by
  refine ⟨⟨le_trans (by norm_num) (classify_confidence_bounds m).1,
    (classify_confidence_bounds m).2⟩, ?_, ?_, ?_⟩
  · cases h : (classify m).classification
    · exact Or.inl rfl
    · exact Or.inr (Or.inl rfl)
    · exact Or.inr (Or.inr (Or.inl rfl))
    · exact Or.inr (Or.inr (Or.inr rfl))
  all_goals
    unfold classify
    dsimp only
  · intro p hp
    rw [List.mem_filter] at hp
    obtain ⟨hptl, hpgt⟩ := hp
    refine ⟨?_, by simpa using hpgt⟩
    obtain ⟨hd, tl, hcons⟩ : ∃ hd tl,
        sortDescPairs [(WorkloadClassification.lambda_candidate,
            score_lambda_candidate m (compute_statistics m)),
          (WorkloadClassification.fargate_candidate,
            score_fargate_candidate m (compute_statistics m)),
          (WorkloadClassification.spot_candidate,
            score_spot_candidate m (compute_statistics m)),
          (WorkloadClassification.keep_ec2,
            score_keep_ec2 m (compute_statistics m))] = hd :: tl := by
      have hlen := (sortDescPairs_perm [(WorkloadClassification.lambda_candidate,
            score_lambda_candidate m (compute_statistics m)),
          (WorkloadClassification.fargate_candidate,
            score_fargate_candidate m (compute_statistics m)),
          (WorkloadClassification.spot_candidate,
            score_spot_candidate m (compute_statistics m)),
          (WorkloadClassification.keep_ec2,
            score_keep_ec2 m (compute_statistics m))]).length_eq
      cases hsort : sortDescPairs [(WorkloadClassification.lambda_candidate,
            score_lambda_candidate m (compute_statistics m)),
          (WorkloadClassification.fargate_candidate,
            score_fargate_candidate m (compute_statistics m)),
          (WorkloadClassification.spot_candidate,
            score_spot_candidate m (compute_statistics m)),
          (WorkloadClassification.keep_ec2,
            score_keep_ec2 m (compute_statistics m))] with
      | nil => rw [hsort] at hlen; simp at hlen
      | cons hd tl => exact ⟨hd, tl, rfl⟩
    rw [hcons] at hptl ⊢
    simp only [List.headD_cons, List.tail_cons] at hptl ⊢
    have hnodup : ((hd :: tl).map Prod.fst).Nodup := by
      have hperm := (sortDescPairs_perm [(WorkloadClassification.lambda_candidate,
            score_lambda_candidate m (compute_statistics m)),
          (WorkloadClassification.fargate_candidate,
            score_fargate_candidate m (compute_statistics m)),
          (WorkloadClassification.spot_candidate,
            score_spot_candidate m (compute_statistics m)),
          (WorkloadClassification.keep_ec2,
            score_keep_ec2 m (compute_statistics m))]).map Prod.fst
      rw [hcons] at hperm
      exact hperm.nodup_iff.mpr (by simp)
    simp only [List.map_cons, List.nodup_cons] at hnodup
    intro hpe
    exact hnodup.1 (hpe ▸ List.mem_map_of_mem Prod.fst hptl)
  · apply List.Pairwise.sublist (List.filter_sublist _)
    have hpair := sortDescPairs_pairwise [(WorkloadClassification.lambda_candidate,
          score_lambda_candidate m (compute_statistics m)),
        (WorkloadClassification.fargate_candidate,
          score_fargate_candidate m (compute_statistics m)),
        (WorkloadClassification.spot_candidate,
          score_spot_candidate m (compute_statistics m)),
        (WorkloadClassification.keep_ec2,
          score_keep_ec2 m (compute_statistics m))]
    exact hpair.tail

/-! ## C7 — the 336-sample 10%-spike scenario -/

lemma two_class_sum_bounds : ∀ (l : List ℚ),
    (∀ v ∈ l, (70 ≤ v ∧ v ≤ 95) ∨ (1 ≤ v ∧ v < 5)) →
    70 * (l.countP (fun v => decide (70 ≤ v)) : ℚ) +
        ((l.length : ℚ) - (l.countP (fun v => decide (70 ≤ v)) : ℚ)) ≤ l.sum ∧
    l.sum ≤ 95 * (l.countP (fun v => decide (70 ≤ v)) : ℚ) +
        5 * ((l.length : ℚ) - (l.countP (fun v => decide (70 ≤ v)) : ℚ)) := by
  intro l
  induction l with
  | nil => simp
  | cons v vs ih =>
      intro h
      obtain ⟨ih1, ih2⟩ := ih (fun x hx => h x (List.mem_cons_of_mem v hx))
      rcases h v (List.mem_cons_self v vs) with ⟨h70, h95⟩ | ⟨h1, h5⟩
      · have hp : (fun v => decide (70 ≤ v)) v = true := by simp [h70]
        simp only [List.countP_cons, List.sum_cons, List.length_cons, hp, if_true]
        push_cast
        constructor <;> linarith
      · have hp : (fun v => decide (70 ≤ v)) v = false := by simp; linarith
        simp only [List.countP_cons, List.sum_cons, List.length_cons, hp, if_false]
        push_cast
        constructor <;> linarith

lemma two_class_idle_count : ∀ (l : List ℚ),
    (∀ v ∈ l, (70 ≤ v ∧ v ≤ 95) ∨ (1 ≤ v ∧ v < 5)) →
    l.countP (fun v => decide (v < 5)) + l.countP (fun v => decide (70 ≤ v)) = l.length := by
  intro l
  induction l with
  | nil => simp
  | cons v vs ih =>
      intro h
      have hv := h v (List.mem_cons_self v vs)
      have hih := ih (fun x hx => h x (List.mem_cons_of_mem v hx))
      rcases hv with ⟨h70, h95⟩ | ⟨h1, h5⟩
      · have hp1 : (fun v => decide (v < 5)) v = false := by simp; linarith
        have hp2 : (fun v => decide (70 ≤ v)) v = true := by simp [h70]
        simp [List.countP_cons, List.length_cons, hp1, hp2]
        omega
      · have hp1 : (fun v => decide (v < 5)) v = true := by simp [h5]
        have hp2 : (fun v => decide (70 ≤ v)) v = false := by simp; linarith
        simp [List.countP_cons, List.length_cons, hp1, hp2]
        omega

lemma pythonMaxAux_eq_or_mem (b : ℚ) : ∀ l : List ℚ, pythonMaxAux b l = b ∨ pythonMaxAux b l ∈ l := by
  intro l
  induction l generalizing b with
  | nil => exact Or.inl rfl
  | cons x xs ih =>
      unfold pythonMaxAux
      split
      · rcases ih x with h | h
        · exact Or.inr (by rw [h]; exact List.mem_cons_self x xs)
        · exact Or.inr (List.mem_cons_of_mem x h)
      · rcases ih b with h | h
        · exact Or.inl h
        · exact Or.inr (List.mem_cons_of_mem x h)

lemma le_pythonMaxAux (b : ℚ) : ∀ l : List ℚ, b ≤ pythonMaxAux b l := by
  intro l
  induction l generalizing b with
  | nil => exact le_refl b
  | cons x xs ih =>
      unfold pythonMaxAux
      split
      · rename_i hbx
        exact le_trans (le_of_lt hbx) (ih x)
      · exact ih b

lemma le_pythonMaxAux_of_mem (b : ℚ) : ∀ (l : List ℚ) (x : ℚ), x ∈ l → x ≤ pythonMaxAux b l := by
  intro l
  induction l generalizing b with
  | nil => intro x hx; exact absurd hx (List.not_mem_nil x)
  | cons y ys ih =>
      intro x hx
      unfold pythonMaxAux
      rcases List.mem_cons.mp hx with rfl | hx
      · split
        · exact le_pythonMaxAux x ys
        · rename_i hby
          exact le_trans (not_lt.mp hby) (le_pythonMaxAux b ys)
      · split
        · exact ih y x hx
        · exact ih b x hx

lemma pythonMaxQ_mem (l : List ℚ) (hne : l ≠ []) : pythonMaxQ l ∈ l := by
  cases l with
  | nil => exact absurd rfl hne
  | cons x xs =>
      have hq : pythonMaxQ (x :: xs) = pythonMaxAux x xs := rfl
      rw [hq]
      rcases pythonMaxAux_eq_or_mem x xs with h | h
      · rw [h]; exact List.mem_cons_self x xs
      · exact List.mem_cons_of_mem x h

lemma le_pythonMaxQ (l : List ℚ) (x : ℚ) (hx : x ∈ l) : x ≤ pythonMaxQ l := by
  cases l with
  | nil => exact absurd hx (List.not_mem_nil x)
  | cons y ys =>
      have hq : pythonMaxQ (y :: ys) = pythonMaxAux y ys := rfl
      rw [hq]
      rcases List.mem_cons.mp hx with rfl | hx
      · exact le_pythonMaxAux x ys
      · exact le_pythonMaxAux_of_mem y ys x hx

lemma sortDescPairs_headD_of_max (a : WorkloadClassification × ℚ)
    (rest : List (WorkloadClassification × ℚ)) (h : ∀ x ∈ rest, x.2 ≤ a.2) :
    (sortDescPairs (a :: rest)).headD (WorkloadClassification.keep_ec2, 0) = a := by
  have hsort : sortDescPairs (a :: rest) = insertDescPair a (sortDescPairs rest) := rfl
  rw [hsort]
  cases hrest : sortDescPairs rest with
  | nil => rfl
  | cons y ys =>
      have hy : y ∈ rest := (sortDescPairs_perm rest).mem_iff.mp (hrest ▸ List.mem_cons_self y ys)
      unfold insertDescPair
      rw [if_pos (h y hy)]
      rfl

lemma compute_statistics_cpu_avg (m : CloudWatchMetrics) (hne : m.cpu_utilization ≠ []) :
    (compute_statistics m).cpu_avg = some (meanQ (m.cpu_utilization.map (·.value))) := by
  unfold compute_statistics statOf
  dsimp only
  rw [if_neg (by simpa using hne)]

lemma compute_statistics_cpu_idle (m : CloudWatchMetrics) (hne : m.cpu_utilization ≠ []) :
    (compute_statistics m).cpu_idle_percent =
      some ((((m.cpu_utilization.map (·.value)).countP (fun v => decide (v < 5)) : ℚ) /
        (m.cpu_utilization.map (·.value)).length) * 100) := by
  unfold compute_statistics statOf
  dsimp only
  rw [if_neg (by simpa using hne)]

lemma compute_statistics_burst_ratio (m : CloudWatchMetrics) (hne : m.cpu_utilization ≠ []) :
    (compute_statistics m).burst_ratio =
      pythonMaxQ (m.cpu_utilization.map (·.value)) /
        max (meanQ (m.cpu_utilization.map (·.value))) (1 / 10) := by
  unfold compute_statistics statOf
  dsimp only
  rw [if_neg (by simpa using hne), if_neg (by simpa using hne)]
  rfl

lemma compute_statistics_memory_avg_none (m : CloudWatchMetrics)
    (h : m.memory_utilization = []) : (compute_statistics m).memory_avg = none := by
  unfold compute_statistics statOf
  dsimp only
  rw [if_pos (by simp [h])]

lemma compute_statistics_memory_stddev_none (m : CloudWatchMetrics)
    (h : m.memory_utilization = []) : (compute_statistics m).memory_stddev_sq = none := by
  unfold compute_statistics statOf
  dsimp only
  rw [if_pos (by simp [h])]

lemma compute_statistics_network_in_avg_none (m : CloudWatchMetrics)
    (h : m.network_in = []) : (compute_statistics m).network_in_avg = none := by
  unfold compute_statistics statOf
  dsimp only
  rw [if_pos (by simp [h])]

lemma compute_statistics_network_out_avg_none (m : CloudWatchMetrics)
    (h : m.network_out = []) : (compute_statistics m).network_out_avg = none := by
  unfold compute_statistics statOf
  dsimp only
  rw [if_pos (by simp [h])]

lemma compute_statistics_disk_read_avg_none (m : CloudWatchMetrics)
    (h : m.disk_read_ops = []) : (compute_statistics m).disk_read_ops_avg = none := by
  unfold compute_statistics statOf
  dsimp only
  rw [if_pos (by simp [h])]

lemma compute_statistics_disk_write_avg_none (m : CloudWatchMetrics)
    (h : m.disk_write_ops = []) : (compute_statistics m).disk_write_ops_avg = none := by
  unfold compute_statistics statOf
  dsimp only
  rw [if_pos (by simp [h])]

lemma compute_statistics_disk_write_max_none (m : CloudWatchMetrics)
    (h : m.disk_write_ops = []) : (compute_statistics m).disk_write_ops_max = none := by
  unfold compute_statistics statOf
  dsimp only
  rw [if_pos (by simp [h])]

lemma c7_value_facts (m : CloudWatchMetrics)
    (hlen : m.cpu_utilization.length = 336)
    (hcls : ∀ p ∈ m.cpu_utilization, (70 ≤ p.value ∧ p.value ≤ 95) ∨ (1 ≤ p.value ∧ p.value < 5))
    (hcnt : m.cpu_utilization.countP (fun p => decide (70 ≤ p.value)) = 34) :
    (m.cpu_utilization.map (·.value)).length = 336 ∧
    (∀ v ∈ m.cpu_utilization.map (·.value), (70 ≤ v ∧ v ≤ 95) ∨ (1 ≤ v ∧ v < 5)) ∧
    (m.cpu_utilization.map (·.value)).countP (fun v => decide (70 ≤ v)) = 34 := by
  refine ⟨by simp [hlen], ?_, ?_⟩
  · intro v hv
    obtain ⟨p, hp, rfl⟩ := List.mem_map.mp hv
    exact hcls p hp
  · rw [List.countP_map]
    exact hcnt

lemma c7_stat_facts (vs : List ℚ) (hlen : vs.length = 336)
    (hcls : ∀ v ∈ vs, (70 ≤ v ∧ v ≤ 95) ∨ (1 ≤ v ∧ v < 5))
    (hcnt : vs.countP (fun v => decide (70 ≤ v)) = 34) :
    (2682 / 336 ≤ meanQ vs ∧ meanQ vs ≤ 4740 / 336) ∧
    vs.countP (fun v => decide (v < 5)) = 302 ∧
    70 ≤ pythonMaxQ vs ∧ pythonMaxQ vs ≤ 95 := by
  have hsum := two_class_sum_bounds vs hcls
  rw [hcnt, hlen] at hsum
  norm_num at hsum
  have hidle := two_class_idle_count vs hcls
  rw [hcnt, hlen] at hidle
  have hne : vs ≠ [] := by
    intro h
    rw [h] at hlen
    simp at hlen
  have hcast : (vs.length : ℚ) = 336 := by rw [hlen]; norm_num
  refine ⟨⟨?_, ?_⟩, by omega, ?_, ?_⟩
  · unfold meanQ
    rw [hcast]
    rw [div_le_div_iff_of_pos_right (by norm_num)]
    linarith [hsum.1]
  · unfold meanQ
    rw [hcast]
    rw [div_le_div_iff_of_pos_right (by norm_num)]
    linarith [hsum.2]
  · have hpos : 0 < vs.countP (fun v => decide (70 ≤ v)) := by omega
    obtain ⟨v, hv, hp⟩ := List.countP_pos_iff.mp hpos
    have h70 : 70 ≤ v := by simpa using hp
    exact le_trans h70 (le_pythonMaxQ vs v hv)
  · have hmem := pythonMaxQ_mem vs hne
    rcases hcls _ hmem with ⟨-, h95⟩ | ⟨-, h5⟩
    · exact h95
    · linarith

lemma c7_lambda_score (m : CloudWatchMetrics) (st : Stats)
    (havg : ∃ a, st.cpu_avg = some a ∧ a ≤ 20)
    (hidle : ∃ i, st.cpu_idle_percent = some i ∧ 70 ≤ i)
    (hbr : 3 ≤ st.burst_ratio)
    (hdw : st.disk_write_ops_avg = none)
    (hps : m.has_persistent_storage = false)
    (hasg : m.in_auto_scaling_group = false)
    (hmem : st.memory_avg = none) :
    score_lambda_candidate m st = 17 / 20 := by
  obtain ⟨a, ha, ha20⟩ := havg
  obtain ⟨i, hi, hi70⟩ := hidle
  unfold score_lambda_candidate
  dsimp only
  rw [ha, hi, hdw, hps, hasg, hmem]
  simp only [Option.getD_some, Option.getD_none]
  rw [if_pos ha20, if_pos hi70, if_pos hbr]
  norm_num

lemma c7_fargate_le (m : CloudWatchMetrics) (st : Stats)
    (hidle : ∃ i, st.cpu_idle_percent = some i ∧ 70 ≤ i)
    (hmem : st.memory_stddev_sq = none)
    (hnin : st.network_in_avg = none)
    (hnout : st.network_out_avg = none)
    (hasg : m.in_auto_scaling_group = false) :
    score_fargate_candidate m st ≤ 2 / 5 := by
  obtain ⟨i, hi, hi70⟩ := hidle
  unfold score_fargate_candidate
  dsimp only
  rw [hi, hmem, hnin, hnout, hasg]
  simp only [Option.getD_some, Option.getD_none]
  have hnc3 : ¬(80 ≤ 100 - i) := by linarith
  have hnc4 : ¬(stdevLT (none : Option ℚ) 100 15 = true) := by norm_num [stdevLT]
  have hnc5 : ¬((1000 : ℚ) < 0 ∨ (1000 : ℚ) < 0) := by norm_num
  have hnc6 : ¬(false = true) := by norm_num
  rw [if_neg hnc3, if_neg hnc4, if_neg hnc5, if_neg hnc6]
  refine max_le ?_ (by norm_num)
  split_ifs <;> norm_num

lemma c7_spot_le (m : CloudWatchMetrics) (st : Stats)
    (havg : ∃ a, st.cpu_avg = some a ∧ a ≤ 20)
    (hnout : st.network_out_avg = none)
    (hage : m.instance_age_days = 0) :
    score_spot_candidate m st ≤ 13 / 20 := by
  obtain ⟨a, ha, ha20⟩ := havg
  unfold score_spot_candidate
  dsimp only
  rw [ha, hnout, hage]
  simp only [Option.getD_some, Option.getD_none]
  have hnc3 : ¬(2 < st.burst_ratio ∧ 20 < a) := fun hc => absurd hc.2 (not_lt.mpr ha20)
  have hnc6 : ¬((30 : ℤ) < 0) := by norm_num
  rw [if_neg hnc3, if_neg hnc6]
  refine max_le ?_ (by norm_num)
  split_ifs <;> norm_num

lemma c7_keep_eq (m : CloudWatchMetrics) (st : Stats)
    (havg : ∃ a, st.cpu_avg = some a ∧ a ≤ 20)
    (hmem : st.memory_avg = none)
    (hdr : st.disk_read_ops_avg = none)
    (hdw : st.disk_write_ops_avg = none)
    (heip : m.has_elastic_ip = false)
    (hps : m.has_persistent_storage = false) :
    score_keep_ec2 m st = 3 / 10 := by
  obtain ⟨a, ha, ha20⟩ := havg
  unfold score_keep_ec2
  dsimp only
  rw [ha, hmem, hdr, hdw, heip, hps]
  simp only [Option.getD_some, Option.getD_none]
  have hnc1 : ¬(70 < a ∧ stdevLT st.cpu_stddev_sq 0 15 = true) :=
    fun hc => absurd hc.1 (not_lt.mpr (by linarith))
  rw [if_neg hnc1]
  norm_num

lemma c7cex_cpu_avg : (compute_statistics c7cexSnapshot).cpu_avg = some (275 / 21) := by
  with_unfolding_all decide

lemma c7cex_cpu_idle : (compute_statistics c7cexSnapshot).cpu_idle_percent = some 0 := by
  with_unfolding_all decide

lemma c7cex_stddev : stdevLE (compute_statistics c7cexSnapshot).cpu_stddev_sq 100 25 = true := by
  with_unfolding_all decide

lemma c7cex_p95 : (compute_statistics c7cexSnapshot).cpu_p95 = some 85 := by
  with_unfolding_all decide

lemma c7cex_burst : (compute_statistics c7cexSnapshot).burst_ratio = 357 / 55 := by
  with_unfolding_all decide

lemma c7cex_var : 1 < (compute_statistics c7cexSnapshot).variability_score_sq := by
  with_unfolding_all decide

lemma c7cex_mem_avg : (compute_statistics c7cexSnapshot).memory_avg = none := rfl

lemma c7cex_mem_sd : (compute_statistics c7cexSnapshot).memory_stddev_sq = none := rfl

lemma c7cex_nin : (compute_statistics c7cexSnapshot).network_in_avg = none := rfl

lemma c7cex_nout : (compute_statistics c7cexSnapshot).network_out_avg = none := rfl

lemma c7cex_dr : (compute_statistics c7cexSnapshot).disk_read_ops_avg = none := rfl

lemma c7cex_dw : (compute_statistics c7cexSnapshot).disk_write_ops_avg = none := rfl

lemma c7cex_dwm : (compute_statistics c7cexSnapshot).disk_write_ops_max = none := rfl

lemma c7cex_periodic :
    detect_periodic_patternB (c7cexSnapshot.cpu_utilization.map (fun p => p.value)) = true := by
  with_unfolding_all decide

lemma c7cex_ps : c7cexSnapshot.has_persistent_storage = false := rfl

lemma c7cex_asg : c7cexSnapshot.in_auto_scaling_group = false := rfl

lemma c7cex_eip : c7cexSnapshot.has_elastic_ip = false := rfl

lemma c7cex_age : c7cexSnapshot.instance_age_days = 0 := rfl

/-- **Claim C7, counterexample.**  A 336-sample hourly CPU series with 34
samples (≈10%) at `85 ∈ [70, 95]` and 302 samples (≈90%) at `5 ∈ [1, 5]`
(all other series empty, all flags false, age 0) satisfies the claim's
hypothesis, yet `classify` selects `spot_candidate`, not the
lambda (function) candidate: samples at exactly `5` are not idle
(`value < 5` is strict), so `cpu_idle_percent = 0` and the lambda score
loses its idle contribution. -/
theorem c7_counterexample_boundary_idle :
    c7cexSnapshot.cpu_utilization.length = 336 ∧
    c7cexSnapshot.cpu_utilization.countP
      (fun p => decide (70 ≤ p.value ∧ p.value ≤ 95)) = 34 ∧
    c7cexSnapshot.cpu_utilization.countP
      (fun p => decide ((70 ≤ p.value ∧ p.value ≤ 95) ∨ (1 ≤ p.value ∧ p.value ≤ 5))) = 336 ∧
    (classify c7cexSnapshot).classification = WorkloadClassification.spot_candidate ∧
    (classify c7cexSnapshot).confidence = 13 / 20 := by
  refine ⟨by with_unfolding_all decide, by with_unfolding_all decide,
    by with_unfolding_all decide, ?_⟩
  have hspot : score_spot_candidate c7cexSnapshot (compute_statistics c7cexSnapshot)
      = 13 / 20 := by
    rw [score_spot_candidate]
    simp only [c7cex_cpu_avg, c7cex_p95, c7cex_burst, c7cex_var, c7cex_nout, c7cex_periodic,
      c7cex_eip, c7cex_age]
    norm_num
  have hlam : score_lambda_candidate c7cexSnapshot (compute_statistics c7cexSnapshot)
      = 3 / 5 := by
    rw [score_lambda_candidate]
    simp only [c7cex_cpu_avg, c7cex_cpu_idle, c7cex_burst, c7cex_mem_avg, c7cex_dw,
      c7cex_ps, c7cex_asg]
    norm_num
  have hfar : score_fargate_candidate c7cexSnapshot (compute_statistics c7cexSnapshot)
      = 3 / 5 := by
    rw [score_fargate_candidate]
    simp only [c7cex_cpu_avg, c7cex_cpu_idle, c7cex_stddev, c7cex_mem_sd, c7cex_nin,
      c7cex_nout, c7cex_dwm, c7cex_asg]
    norm_num [stdevLT]
  have hkeep : score_keep_ec2 c7cexSnapshot (compute_statistics c7cexSnapshot)
      = 3 / 10 := by
    rw [score_keep_ec2]
    simp only [c7cex_cpu_avg, c7cex_stddev, c7cex_mem_avg, c7cex_dr, c7cex_dw,
      c7cex_eip, c7cex_ps]
    norm_num
  rw [classify, hspot, hlam, hfar, hkeep]
  norm_num [sortDescPairs, insertDescPair]

/-- **Claim C7, amended.**  For a 336-sample hourly CPU series in which
34 samples have values in `[70, 95]` and the remaining 302 have values in
`[1, 5)` — strictly below the idle threshold `5` (the claim's closed
interval `[1, 5]` admits the boundary counterexample above; note also
that 10% of 336 is 33.6, so the high count must be rounded to an
integer) — with every other series empty, all contextual flags false and
age 0, `classify` selects `lambda_candidate` with confidence exactly
`0.85 > 0.5`. -/
theorem c7_amended_lambda_selected (m : CloudWatchMetrics)
    (hlen : m.cpu_utilization.length = 336)
    (hcls : ∀ p ∈ m.cpu_utilization,
      (70 ≤ p.value ∧ p.value ≤ 95) ∨ (1 ≤ p.value ∧ p.value < 5))
    (hcnt : m.cpu_utilization.countP (fun p => decide (70 ≤ p.value)) = 34)
    (hmem : m.memory_utilization = [])
    (hnin : m.network_in = [])
    (hnout : m.network_out = [])
    (hdr : m.disk_read_ops = [])
    (hdw : m.disk_write_ops = [])
    (heip : m.has_elastic_ip = false)
    (hps : m.has_persistent_storage = false)
    (hasg : m.in_auto_scaling_group = false)
    (hage : m.instance_age_days = 0) :
    (classify m).classification = WorkloadClassification.lambda_candidate ∧
    (classify m).confidence = 17 / 20 ∧ 1 / 2 < (classify m).confidence := by
  obtain ⟨hvlen, hvcls, hvcnt⟩ := c7_value_facts m hlen hcls hcnt
  obtain ⟨⟨havg1, havg2⟩, hidle302, hmax70, hmax95⟩ :=
    c7_stat_facts (m.cpu_utilization.map (·.value)) hvlen hvcls hvcnt
  have hne : m.cpu_utilization ≠ [] := by
    intro h
    rw [h] at hlen
    simp at hlen
  have hA := compute_statistics_cpu_avg m hne
  have hI := compute_statistics_cpu_idle m hne
  rw [hidle302, hvlen] at hI
  have hB := compute_statistics_burst_ratio m hne
  have ha20 : meanQ (m.cpu_utilization.map (·.value)) ≤ 20 := by linarith
  have hbr3 : 3 ≤ (compute_statistics m).burst_ratio := by
    rw [hB, max_eq_left (by linarith)]
    rw [le_div_iff₀ (by linarith)]
    linarith
  have havgE : ∃ a, (compute_statistics m).cpu_avg = some a ∧ a ≤ 20 := ⟨_, hA, ha20⟩
  have hidleE : ∃ i, (compute_statistics m).cpu_idle_percent = some i ∧ 70 ≤ i :=
    ⟨_, hI, by norm_num⟩
  have hlam := c7_lambda_score m (compute_statistics m) havgE hidleE hbr3
    (compute_statistics_disk_write_avg_none m hdw) hps hasg
    (compute_statistics_memory_avg_none m hmem)
  have hfar := c7_fargate_le m (compute_statistics m) hidleE
    (compute_statistics_memory_stddev_none m hmem)
    (compute_statistics_network_in_avg_none m hnin)
    (compute_statistics_network_out_avg_none m hnout) hasg
  have hspot := c7_spot_le m (compute_statistics m) havgE
    (compute_statistics_network_out_avg_none m hnout) hage
  have hkeep := c7_keep_eq m (compute_statistics m) havgE
    (compute_statistics_memory_avg_none m hmem)
    (compute_statistics_disk_read_avg_none m hdr)
    (compute_statistics_disk_write_avg_none m hdw) heip hps
  have hhead : (sortDescPairs
      [(WorkloadClassification.lambda_candidate,
          score_lambda_candidate m (compute_statistics m)),
       (WorkloadClassification.fargate_candidate,
          score_fargate_candidate m (compute_statistics m)),
       (WorkloadClassification.spot_candidate,
          score_spot_candidate m (compute_statistics m)),
       (WorkloadClassification.keep_ec2,
          score_keep_ec2 m (compute_statistics m))]).headD
      (WorkloadClassification.keep_ec2, 0) =
      (WorkloadClassification.lambda_candidate,
        score_lambda_candidate m (compute_statistics m)) := by
    apply sortDescPairs_headD_of_max
    intro x hx
    rw [hlam]
    fin_cases hx
    · exact le_trans hfar (by norm_num)
    · exact le_trans hspot (by norm_num)
    · rw [hkeep]
      norm_num
  have hc1 : (classify m).classification = WorkloadClassification.lambda_candidate := by
    unfold classify
    dsimp only
    rw [hhead]
  have hc2 : (classify m).confidence = 17 / 20 := by
    unfold classify
    dsimp only
    rw [hhead]
    dsimp only
    rw [hlam]
    norm_num
  exact ⟨hc1, hc2, by rw [hc2]; norm_num⟩

/-- Witness for `c7_amended_lambda_selected`: the snapshot with 34
samples at `70` and 302 at `4`. -/
theorem c7_amended_witness :
    (classify c7witSnapshot).classification = WorkloadClassification.lambda_candidate ∧
    (classify c7witSnapshot).confidence = 17 / 20 ∧
    1 / 2 < (classify c7witSnapshot).confidence :=
  c7_amended_lambda_selected c7witSnapshot
    (by with_unfolding_all decide) (by with_unfolding_all decide)
    (by with_unfolding_all decide) rfl rfl rfl rfl rfl rfl rfl rfl rfl

end FinOps
